import Mathlib

/-!
# hello_cube: a verification development

A shallow embedding of `src/hello_cube/hello_cube.go`.

* Numbers.  The Go program computes with `float32`/`float64`.  The embedding is
  written over an arbitrary field `K`; the scalar functions of Go's `math` package
  (`Sin`, `Cos`, `Tan`, `Sqrt`, `Pi`) are passed as arguments, so every definition
  is executable (for instance over `ℚ`), and the theorems about trigonometry
  instantiate them with the real functions.  The matrix library is computed in
  exact arithmetic.  The frame loop's own operations take the rounding of
  `float64` and of `float32` as two further arguments; over `ℚ` these are the
  functions `float64` and `float32` below, and with the identity for both the loop
  runs in exact arithmetic.
* Machine integers.  `uint32` handles are `Nat`, `int32` values are `Int`.  Go's
  `int` is taken to be 64 bits wide and is not bounded here (a slice length and
  four times a slice length fit it); the conversions to a narrower type that the
  program makes, `int32(...)` and `uint32(...)`, wrap modulo `2^32`.
* Effects.  The OpenGL driver, the file system and the image library are outside
  the repository.  Every OpenGL call the program makes is recorded in a trace, and
  what the driver, the file system and the image library answer is read from an
  environment record.  A Go `panic` ends the computation with the trace recorded
  so far.
-/

namespace HelloCube

/-! ## Vectors and matrices (package mgl32)

The matrix library is outside the repository; the functions the program calls are
written here as the library defines them, in exact arithmetic. -/

/-- Type `mgl32.Vec3`: `[3]float32`. -/
abbrev Vec3 (K : Type) := Fin 3 → K

/-- Type `mgl32.Mat4`: `[16]float32`, column-major (entry `4*column + row`). -/
abbrev Mat4 (K : Type) := Fin 16 → K

section Numeric

variable {K : Type} [Field K]

/-- The zero value of a Go `mgl32.Mat4`. -/
def zeroMat4 : Mat4 K := fun _ => 0

/-- The zero value of a Go `mgl32.Vec3`. -/
def zeroVec3 : Vec3 K := fun _ => 0

/-- The library function `mgl32.Ident4`. -/
def Ident4 : Mat4 K := ![1, 0, 0, 0, 0, 1, 0, 0, 0, 0, 1, 0, 0, 0, 0, 1]

/-- The library function `mgl32.DegToRad`: `angle * math.Pi / 180`. -/
def DegToRad (pi : K) (angle : K) : K := angle * pi / 180

/-- Modelled from the spec: `mgl32.Perspective` is a function of the matrix library,
which is not under src/; the spec calls it the "standard perspective projection
matrix from field-of-view, aspect = width/height, near, far".  This is that matrix,
written column-major as the library does: `nmf = near - far`,
`f = 1 / tan (fovy / 2)`. -/
def Perspective (tan : K → K) (fovy aspect near far : K) : Mat4 K :=
  let nmf := near - far
  let f := 1 / tan (fovy / 2)
  ![f / aspect, 0, 0, 0,
    0, f, 0, 0,
    0, 0, (near + far) / nmf, -1,
    0, 0, (2 * far * near) / nmf, 0]

/-- The library method `Vec3.Sub`. -/
def Vec3.Sub (v1 v2 : Vec3 K) : Vec3 K := ![v1 0 - v2 0, v1 1 - v2 1, v1 2 - v2 2]

/-- The library method `Vec3.Len`: the square root of the sum of squares. -/
def Vec3.Len (sqrt : K → K) (v : Vec3 K) : K := sqrt (v 0 * v 0 + v 1 * v 1 + v 2 * v 2)

/-- The library method `Vec3.Normalize`: `l := 1.0 / v.Len()`, each entry times `l`. -/
def Vec3.Normalize (sqrt : K → K) (v : Vec3 K) : Vec3 K :=
  let l := 1 / Vec3.Len sqrt v
  ![v 0 * l, v 1 * l, v 2 * l]

/-- The library method `Vec3.Cross`. -/
def Vec3.Cross (v1 v2 : Vec3 K) : Vec3 K :=
  ![v1 1 * v2 2 - v1 2 * v2 1, v1 2 * v2 0 - v1 0 * v2 2, v1 0 * v2 1 - v1 1 * v2 0]

/-- The library function `mgl32.Translate3D`. -/
def Translate3D (tx ty tz : K) : Mat4 K :=
  ![1, 0, 0, 0, 0, 1, 0, 0, 0, 0, 1, 0, tx, ty, tz, 1]

/-- The library method `Mat4.Mul4`: the product of two column-major matrices. -/
def Mat4.Mul4 (m1 m2 : Mat4 K) : Mat4 K :=
  ![m1 0 * m2 0 + m1 4 * m2 1 + m1 8 * m2 2 + m1 12 * m2 3,
    m1 1 * m2 0 + m1 5 * m2 1 + m1 9 * m2 2 + m1 13 * m2 3,
    m1 2 * m2 0 + m1 6 * m2 1 + m1 10 * m2 2 + m1 14 * m2 3,
    m1 3 * m2 0 + m1 7 * m2 1 + m1 11 * m2 2 + m1 15 * m2 3,
    m1 0 * m2 4 + m1 4 * m2 5 + m1 8 * m2 6 + m1 12 * m2 7,
    m1 1 * m2 4 + m1 5 * m2 5 + m1 9 * m2 6 + m1 13 * m2 7,
    m1 2 * m2 4 + m1 6 * m2 5 + m1 10 * m2 6 + m1 14 * m2 7,
    m1 3 * m2 4 + m1 7 * m2 5 + m1 11 * m2 6 + m1 15 * m2 7,
    m1 0 * m2 8 + m1 4 * m2 9 + m1 8 * m2 10 + m1 12 * m2 11,
    m1 1 * m2 8 + m1 5 * m2 9 + m1 9 * m2 10 + m1 13 * m2 11,
    m1 2 * m2 8 + m1 6 * m2 9 + m1 10 * m2 10 + m1 14 * m2 11,
    m1 3 * m2 8 + m1 7 * m2 9 + m1 11 * m2 10 + m1 15 * m2 11,
    m1 0 * m2 12 + m1 4 * m2 13 + m1 8 * m2 14 + m1 12 * m2 15,
    m1 1 * m2 12 + m1 5 * m2 13 + m1 9 * m2 14 + m1 13 * m2 15,
    m1 2 * m2 12 + m1 6 * m2 13 + m1 10 * m2 14 + m1 14 * m2 15,
    m1 3 * m2 12 + m1 7 * m2 13 + m1 11 * m2 14 + m1 15 * m2 15]

/-- Modelled from the spec: `mgl32.LookAtV` is a function of the matrix library,
which is not under src/; the spec calls it the "standard look-at matrix from eye
position toward center point with given up vector".  This is that matrix as the
library builds it: the rotation into the basis `(s, u, -f)` times the translation
by `-eye`. -/
def LookAtV (sqrt : K → K) (eye center up : Vec3 K) : Mat4 K :=
  let f := Vec3.Normalize sqrt (Vec3.Sub center eye)
  let s := Vec3.Normalize sqrt (Vec3.Cross f (Vec3.Normalize sqrt up))
  let u := Vec3.Cross s f
  let M : Mat4 K :=
    ![s 0, u 0, -f 0, 0,
      s 1, u 1, -f 1, 0,
      s 2, u 2, -f 2, 0,
      0, 0, 0, 1]
  Mat4.Mul4 M (Translate3D (-eye 0) (-eye 1) (-eye 2))

/-- Modelled from the spec: `mgl32.HomogRotate3D` is a function of the matrix
library, which is not under src/; the spec calls the model transform "a rotation
about a fixed axis".  This is the homogeneous axis-angle rotation matrix as the
library writes it, column-major, with `s = sin angle`, `c = cos angle`,
`k = 1 - c`. -/
def HomogRotate3D (sin cos : K → K) (angle : K) (axis : Vec3 K) : Mat4 K :=
  let x := axis 0
  let y := axis 1
  let z := axis 2
  let s := sin angle
  let c := cos angle
  let k := 1 - c
  ![x * x * k + c, x * y * k + z * s, x * z * k - y * s, 0,
    x * y * k - z * s, y * y * k + c, y * z * k + x * s, 0,
    x * z * k + y * s, y * z * k - x * s, z * z * k + c, 0,
    0, 0, 0, 1]

/-- A column-major `Mat4` read as a 4 by 4 matrix (row `r`, column `c` is entry
`4 * c + r`); used to state determinants and products. -/
def Mat4.toMatrix (m : Mat4 K) : Matrix (Fin 4) (Fin 4) K :=
  Matrix.of fun r c => m ⟨4 * c.val + r.val, by omega⟩

/-- The upper-left 3 by 3 block of a column-major `Mat4`. -/
def Mat4.block3 (m : Mat4 K) : Matrix (Fin 3) (Fin 3) K :=
  Matrix.of fun r c => m ⟨4 * c.val + r.val, by omega⟩

end Numeric

/-! ## Machine integers -/

/-- Go's conversion `int32(n)` of an integer: the value modulo `2^32`, read as a
signed 32-bit number. -/
def int32 (n : Int) : Int := (n + 2 ^ 31) % 2 ^ 32 - 2 ^ 31

/-- Go's conversion `uint32(n)` of an integer: the value modulo `2^32`. -/
def uint32 (n : Int) : Nat := (n % 2 ^ 32).toNat

/-! ## Floating-point rounding

Go's `float64` and `float32` follow IEEE 754: the result of an operation or of a
conversion is the exact result rounded to the nearest value of the type, a tie going
to the value whose last significand bit is 0.  The values are rationals here; the
exponent range is not bounded (no overflow to infinity, no subnormal numbers) and
there is no NaN. -/

/-- A rational rounded to the nearest integer, a tie going to the even one. -/
def roundHalfEven (q : ℚ) : Int :=
  let f := ⌊q⌋
  if q - f < 1 / 2 then f
  else if 1 / 2 < q - f then f + 1
  else if f % 2 = 0 then f else f + 1

/-- The number of binary digits of `n` (0 for 0); `fuel` bounds the recursion and
`fuel = n` is enough. -/
def bitLength : Nat → Nat → Nat
  | 0, _ => 0
  | fuel + 1, n => if n = 0 then 0 else bitLength fuel (n / 2) + 1

/-- The binary exponent of a non-zero rational `x`: the `e` with
`2^e ≤ |x| < 2^(e+1)`.  The difference of the bit lengths of numerator and
denominator is `e` or `e + 1`. -/
def binadeExponent (x : ℚ) : Int :=
  let e := (bitLength x.num.natAbs x.num.natAbs : Int) - (bitLength x.den x.den : Int)
  if (2 : ℚ) ^ e ≤ |x| then e else e - 1

/-- Rounding to the nearest binary floating-point number with a significand of `p`
bits, ties to even: `x` is scaled so that its significand is an integer of `p` bits,
rounded, and scaled back. -/
def roundToPrecision (p : Nat) (x : ℚ) : ℚ :=
  if x = 0 then 0
  else
    let e := binadeExponent x - ((p : Int) - 1)
    (roundHalfEven (x / 2 ^ e) : ℚ) * 2 ^ e

/-- Rounding to `float32`: 24 significand bits. -/
def float32 : ℚ → ℚ := roundToPrecision 24

/-- Rounding to `float64`: 53 significand bits. -/
def float64 : ℚ → ℚ := roundToPrecision 53

/-! ## The outside world: OpenGL, files, images -/

/-- The OpenGL enumerants the program passes (package gl). -/
inductive GLenum
  | VERTEX_SHADER | FRAGMENT_SHADER | COMPILE_STATUS | LINK_STATUS | INFO_LOG_LENGTH
  | ARRAY_BUFFER | STATIC_DRAW | FLOAT | TEXTURE0 | TEXTURE_2D
  | TEXTURE_MIN_FILTER | TEXTURE_MAG_FILTER | TEXTURE_WRAP_S | TEXTURE_WRAP_T
  | LINEAR | CLAMP_TO_EDGE | RGBA | UNSIGNED_BYTE | TRIANGLES
  deriving DecidableEq, Repr

/-- The constant `gl.FALSE`. -/
def GL_FALSE : Int := 0

/-- One call of the program into OpenGL, with the arguments it passes.  A pointer
argument is recorded as the data it points to; a C string without its terminator. -/
inductive GLCall (K : Type)
  | CreateShader (shaderType : GLenum)
  | ShaderSource (shader : Nat) (count : Int) (source : String)
  | CompileShader (shader : Nat)
  | GetShaderiv (shader : Nat) (pname : GLenum)
  | GetShaderInfoLog (shader : Nat) (bufSize : Int)
  | CreateProgram
  | AttachShader (program shader : Nat)
  | LinkProgram (program : Nat)
  | GetProgramiv (program : Nat) (pname : GLenum)
  | GetProgramInfoLog (program : Nat) (bufSize : Int)
  | DeleteShader (shader : Nat)
  | UseProgram (program : Nat)
  | GetUniformLocation (program : Nat) (name : String)
  | UniformMatrix4fv (location : Int) (count : Int) (transpose : Bool) (value : Mat4 K)
  | Uniform1i (location : Int) (v0 : Int)
  | BindFragDataLocation (program : Nat) (color : Nat) (name : String)
  | GenVertexArrays (n : Int)
  | BindVertexArray (array : Nat)
  | GenBuffers (n : Int)
  | BindBuffer (target : GLenum) (buffer : Nat)
  | BufferData (target : GLenum) (size : Int) (data : List K) (usage : GLenum)
  | GetAttribLocation (program : Nat) (name : String)
  | EnableVertexAttribArray (index : Nat)
  | VertexAttribPointerWithOffset (index : Nat) (size : Int) (xtype : GLenum)
      (normalized : Bool) (stride : Int) (offset : Nat)
  | GenTextures (n : Int)
  | ActiveTexture (texture : GLenum)
  | BindTexture (target : GLenum) (texture : Nat)
  | TexParameteri (target pname param : GLenum)
  | TexImage2D (target : GLenum) (level : Int) (internalformat : GLenum)
      (width height border : Int) (format xtype : GLenum) (pixels : List Nat)
  | DrawArrays (mode : GLenum) (first count : Int)

/-- Type `image.Point`. -/
structure Point where
  X : Int
  Y : Int
  deriving DecidableEq, Repr

/-- Type `image.Rectangle`. -/
structure Rectangle where
  Min : Point
  Max : Point
  deriving DecidableEq, Repr

/-- The method `Rectangle.Size`. -/
def Rectangle.Size (r : Rectangle) : Point := ⟨r.Max.X - r.Min.X, r.Max.Y - r.Min.Y⟩

/-- Type `image.RGBA`: the pixel bytes, the row stride in bytes and the bounds. -/
structure RGBA where
  Pix : List Nat
  Stride : Int
  Rect : Rectangle
  deriving DecidableEq, Repr

/-- The method `RGBA.Bounds`. -/
def RGBA.Bounds (p : RGBA) : Rectangle := p.Rect

/-- A decoded picture, what `image.Decode` returns behind the interface
`image.Image`: its bounds and its pixel content. -/
structure Image where
  Bounds : Rectangle
  content : List Nat
  deriving DecidableEq, Repr

/-- What the world outside the program answers.  The functions taking a trace are
asked with the calls made so far, so that a driver may answer differently each time
(fresh handles).  Uniform and attribute locations depend on the program and the name
only. -/
structure Env (K : Type) where
  /-- the handle `gl.CreateShader` returns -/
  createShader : List (GLCall K) → GLenum → Nat
  /-- the value `gl.GetShaderiv` writes -/
  shaderiv : List (GLCall K) → Nat → GLenum → Int
  /-- the buffer content after `gl.GetShaderInfoLog` -/
  shaderInfoLog : List (GLCall K) → Nat → Int → String
  /-- the handle `gl.CreateProgram` returns -/
  createProgram : List (GLCall K) → Nat
  /-- the value `gl.GetProgramiv` writes -/
  programiv : List (GLCall K) → Nat → GLenum → Int
  /-- the buffer content after `gl.GetProgramInfoLog` -/
  programInfoLog : List (GLCall K) → Nat → Int → String
  /-- the location `gl.GetUniformLocation` returns, `-1` for a name that is absent -/
  uniformLocation : Nat → String → Int
  /-- the location `gl.GetAttribLocation` returns -/
  attribLocation : Nat → String → Int
  /-- the name `gl.GenVertexArrays` writes -/
  genVertexArray : List (GLCall K) → Nat
  /-- the name `gl.GenBuffers` writes -/
  genBuffer : List (GLCall K) → Nat
  /-- the name `gl.GenTextures` writes -/
  genTexture : List (GLCall K) → Nat
  /-- the result of `os.Open`: a file or an error -/
  openFile : String → Except String Nat
  /-- the result of `image.Decode`: a picture or an error -/
  decode : Nat → Except String Image
  /-- the picture `image.NewRGBA` allocates for the given bounds -/
  newRGBA : Rectangle → RGBA
  /-- the destination after `draw.Draw(dst, r, src, image.Point(0,0), draw.Src)` -/
  draw : RGBA → Rectangle → Image → RGBA

/-- The program's memory for `[]float32` variables: the slice stored at an address. -/
abbrev Memory (K : Type) := Nat → List K

/-! ## Computations that call OpenGL and may panic -/

/-- How a computation ends: a returned value or the message of a panic, and the
OpenGL calls made up to that point (oldest first). -/
structure Outcome (K α : Type) where
  result : Except String α
  trace : List (GLCall K)

/-- A computation: from the calls made before it to its outcome. -/
def GLM (K α : Type) : Type := List (GLCall K) → Outcome K α

/-- Sequencing: a panic in the first part ends the whole. -/
def GLM.bind {K α β : Type} (m : GLM K α) (f : α → GLM K β) : GLM K β := fun tr =>
  match (m tr).result with
  | .ok a => f a (m tr).trace
  | .error e => ⟨.error e, (m tr).trace⟩

instance {K : Type} : Monad (GLM K) where
  pure a := fun tr => ⟨.ok a, tr⟩
  bind := GLM.bind

/-- A call into OpenGL that returns nothing. -/
def gl {K : Type} (c : GLCall K) : GLM K Unit := fun tr => ⟨.ok (), tr ++ [c]⟩

/-- A call into OpenGL that returns (or writes through a pointer) an answer. -/
def glAsk {K α : Type} (c : GLCall K) (answer : List (GLCall K) → α) : GLM K α :=
  fun tr => ⟨.ok (answer tr), tr ++ [c]⟩

/-- A Go `panic` with the given message. -/
def goPanic {K α : Type} (msg : String) : GLM K α := fun tr => ⟨.error msg, tr⟩

/-- The calls a computation makes when run after no earlier call. -/
def GLM.issued {K α : Type} (m : GLM K α) : List (GLCall K) := (m []).trace

/-- Go's `strings.Repeat("\x00", count)`: panics on a negative count. -/
def repeatNul {K : Type} (count : Int) : GLM K String :=
  if count < 0 then goPanic "strings: negative Repeat count"
  else pure (String.mk (List.replicate count.toNat (Char.ofNat 0)))

/-- The helper `gl.Str`: panics unless the string ends in a NUL byte. -/
def glStr {K : Type} (str : String) : GLM K Unit :=
  if str.data.getLast? = some (Char.ofNat 0) then pure ()
  else goPanic ("str argument missing null terminator: " ++ str)

/-- The helper `gl.Ptr` on a slice: it takes the address of the element at index 0,
so an empty slice panics. -/
def glPtr {K α : Type} (data : List α) : GLM K Unit :=
  if data.isEmpty then goPanic "reflect: slice index out of range" else pure ()

/-- Reading a slice through a `*[]float32`: a nil pointer panics. -/
def deref {K : Type} (mem : Memory K) (p : Option Nat) : GLM K (List K) :=
  match p with
  | some a => pure (mem a)
  | none => goPanic "runtime error: invalid memory address or nil pointer dereference"

/-! ## The program: constants and data -/

/-- The constant `windowWidth`. -/
def windowWidth : Int := 800

/-- The constant `windowHeight`. -/
def windowHeight : Int := 600

/-- The constant `vertexShader`: the GLSL source, NUL-terminated. -/
def vertexShader : String :=
  "\n\t\t#version 330\n\n\t\tuniform mat4 projection;\n\t\tuniform mat4 camera;\n" ++
  "\t\tuniform mat4 model;\n\n\t\tin vec3 vert;\n\t\tin vec2 vertTexCoord;\n\n" ++
  "\t\tout vec2 fragTexCoord;\n\n\t\tvoid main() \x7b\n\t\tfragTexCoord = vertTexCoord;\n" ++
  "\t\tgl_Position = projection * camera * model * vec4(vert, 1);\n\t\t\x7d\n\t\x00"

/-- The constant `fragmentShader`: the GLSL source, NUL-terminated. -/
def fragmentShader : String :=
  "\n\t\t#version 330\n\n\t\tuniform sampler2D tex;\n\n\t\tin vec2 fragTexCoord;\n\n" ++
  "\t\tout vec4 outputColor;\n\n\t\tvoid main() \x7b\n" ++
  "\t\toutputColor = texture(tex, fragTexCoord);\n\t\t\x7d\n\t\x00"

/-- The variable `cubeVertices`: 36 vertices of five numbers `X, Y, Z, U, V`. -/
def cubeVertices {K : Type} [Field K] : List K :=
  [ -- Top (+Z)
    -1, -1, 1, 1, 0,
    1, -1, 1, 0, 0,
    -1, 1, 1, 1, 1,
    1, -1, 1, 0, 0,
    1, 1, 1, 0, 1,
    -1, 1, 1, 1, 1,
    -- Bottom (-Z)
    -1, -1, -1, 0, 0,
    -1, 1, -1, 0, 1,
    1, -1, -1, 1, 0,
    1, -1, -1, 1, 0,
    -1, 1, -1, 0, 1,
    1, 1, -1, 1, 1,
    -- Back (-X)
    -1, -1, 1, 0, 1,
    -1, 1, -1, 1, 0,
    -1, -1, -1, 0, 0,
    -1, -1, 1, 0, 1,
    -1, 1, 1, 1, 1,
    -1, 1, -1, 1, 0,
    -- Front (+X)
    1, -1, 1, 1, 1,
    1, -1, -1, 1, 0,
    1, 1, -1, 0, 0,
    1, -1, 1, 1, 1,
    1, 1, -1, 0, 0,
    1, 1, 1, 0, 1,
    -- Right (-Y)
    -1, -1, -1, 0, 0,
    1, -1, -1, 1, 0,
    -1, -1, 1, 0, 1,
    1, -1, -1, 1, 0,
    1, -1, 1, 1, 1,
    -1, -1, 1, 0, 1,
    -- Left (+Y)
    -1, 1, -1, 0, 0,
    -1, 1, 1, 0, 1,
    1, 1, -1, 1, 0,
    1, 1, -1, 1, 0,
    -1, 1, 1, 0, 1,
    1, 1, 1, 1, 1 ]

/-- Type `simpleObj`.  The field `vertices` is a pointer to a slice: `none` is nil,
`some a` the address of a `[]float32` variable. -/
structure simpleObj (K : Type) where
  program : Nat
  vao : Nat
  vertices : Option Nat
  model : Mat4 K
  modelUniform : Int
  texture : Nat
  textureUniform : Int

/-- Type `simpleViewPoint`. -/
structure simpleViewPoint (K : Type) where
  projection : Mat4 K
  projectionUniform : Int
  fovy : K
  aspect : K
  near : K
  far : K
  camera : Mat4 K
  cameraUniform : Int
  eye : Vec3 K
  center : Vec3 K
  top : Vec3 K

section Program

variable {K : Type} [Field K]

/-- The zero value `simpleObj{}`. -/
def simpleObj.zero : simpleObj K :=
  { program := 0, vao := 0, vertices := none, model := zeroMat4, modelUniform := 0,
    texture := 0, textureUniform := 0 }

/-- The zero value `simpleViewPoint{}`. -/
def simpleViewPoint.zero : simpleViewPoint K :=
  { projection := zeroMat4, projectionUniform := 0, fovy := 0, aspect := 0, near := 0,
    far := 0, camera := zeroMat4, cameraUniform := 0, eye := zeroVec3, center := zeroVec3,
    top := zeroVec3 }

/-! ## The program: functions -/

/-- Function `compileShader`: the shader handle, or the error carrying the source and
the driver's log. -/
def compileShader (env : Env K) (source : String) (shaderType : GLenum) :
    GLM K (Except String Nat) := do
  let shader ← glAsk (.CreateShader shaderType) (fun tr => env.createShader tr shaderType)
  gl (.ShaderSource shader 1 source)
  gl (.CompileShader shader)
  let status ← glAsk (.GetShaderiv shader .COMPILE_STATUS)
    (fun tr => env.shaderiv tr shader .COMPILE_STATUS)
  if status = GL_FALSE then
    let logLength ← glAsk (.GetShaderiv shader .INFO_LOG_LENGTH)
      (fun tr => env.shaderiv tr shader .INFO_LOG_LENGTH)
    let log ← repeatNul (int32 (logLength + 1))
    glStr log
    let log ← glAsk (.GetShaderInfoLog shader logLength)
      (fun tr => env.shaderInfoLog tr shader logLength)
    return .error ("failed to compile " ++ source ++ ": " ++ log)
  return .ok shader

/-- Function `newProgram`.  The object is passed by pointer in Go; the updated object
is returned here. -/
def newProgram (env : Env K) (obj : simpleObj K)
    (vertexShaderSource fragmentShaderSource : String) : GLM K (simpleObj K) := do
  let vertexShader ← match (← compileShader env vertexShaderSource .VERTEX_SHADER) with
    | .error err => goPanic err
    | .ok shader => pure shader
  let fragmentShader ← match (← compileShader env fragmentShaderSource .FRAGMENT_SHADER) with
    | .error err => goPanic err
    | .ok shader => pure shader
  let program ← glAsk .CreateProgram env.createProgram
  gl (.AttachShader program vertexShader)
  gl (.AttachShader program fragmentShader)
  gl (.LinkProgram program)
  let status ← glAsk (.GetProgramiv program .LINK_STATUS)
    (fun tr => env.programiv tr program .LINK_STATUS)
  if status = GL_FALSE then
    let logLength ← glAsk (.GetProgramiv program .INFO_LOG_LENGTH)
      (fun tr => env.programiv tr program .INFO_LOG_LENGTH)
    let log ← repeatNul (int32 (logLength + 1))
    glStr log
    let _ ← glAsk (.GetProgramInfoLog program logLength)
      (fun tr => env.programInfoLog tr program logLength)
    return obj
  gl (.DeleteShader vertexShader)
  gl (.DeleteShader fragmentShader)
  gl (.UseProgram program)
  return { obj with program := program }

/-- Function `newViewPoint`: the derivation parameters are set, the two matrices and
the two uniform handles keep their zero value. -/
def newViewPoint (pi : K) (width height : Int) : simpleViewPoint K :=
  let vp : simpleViewPoint K := simpleViewPoint.zero
  let vp := { vp with fovy := DegToRad pi 45 }
  let vp := { vp with aspect := (width : K) / (height : K) }
  let vp := { vp with near := 1 / 10 }
  let vp := { vp with far := 10 }
  let vp := { vp with eye := ![3, 3, 3] }
  let vp := { vp with center := ![0, 0, 0] }
  let vp := { vp with top := ![0, 0, 1] }
  vp

/-- Function `newMatrixes`.  Object and viewpoint are passed by pointer in Go; the
updated pair is returned here. -/
def newMatrixes (tan sqrt : K → K) (env : Env K) (obj : simpleObj K)
    (vp : simpleViewPoint K) : GLM K (simpleObj K × simpleViewPoint K) := do
  let vp := { vp with projection := Perspective tan vp.fovy vp.aspect vp.near vp.far }
  let loc ← glAsk (.GetUniformLocation obj.program "projection")
    (fun _ => env.uniformLocation obj.program "projection")
  let vp := { vp with projectionUniform := loc }
  gl (.UniformMatrix4fv vp.projectionUniform 1 false vp.projection)

  let vp := { vp with camera := LookAtV sqrt vp.eye vp.center vp.top }
  let loc ← glAsk (.GetUniformLocation obj.program "camera")
    (fun _ => env.uniformLocation obj.program "camera")
  let vp := { vp with cameraUniform := loc }
  gl (.UniformMatrix4fv vp.cameraUniform 1 false vp.camera)

  let obj := { obj with model := Ident4 }
  let loc ← glAsk (.GetUniformLocation obj.program "model")
    (fun _ => env.uniformLocation obj.program "model")
  let obj := { obj with modelUniform := loc }
  gl (.UniformMatrix4fv obj.modelUniform 1 false obj.model)

  let loc ← glAsk (.GetUniformLocation obj.program "tex")
    (fun _ => env.uniformLocation obj.program "tex")
  let obj := { obj with textureUniform := loc }
  gl (.Uniform1i obj.textureUniform 0)

  gl (.BindFragDataLocation obj.program 0 "outputColor")
  return (obj, vp)

/-- Function `newVao`: `vertices` is the pointer passed, `mem` the memory it points
into. -/
def newVao (env : Env K) (mem : Memory K) (obj : simpleObj K) (vertices : Option Nat) :
    GLM K (simpleObj K) := do
  let obj := { obj with vertices := vertices }

  let vao ← glAsk (.GenVertexArrays 1) env.genVertexArray
  gl (.BindVertexArray vao)

  let vbo ← glAsk (.GenBuffers 1) env.genBuffer
  gl (.BindBuffer .ARRAY_BUFFER vbo)
  let data ← deref mem vertices
  glPtr data
  gl (.BufferData .ARRAY_BUFFER ((data.length : Int) * 4) data .STATIC_DRAW)

  let vertAttrib := uint32 (← glAsk (.GetAttribLocation obj.program "vert")
    (fun _ => env.attribLocation obj.program "vert"))
  gl (.EnableVertexAttribArray vertAttrib)
  gl (.VertexAttribPointerWithOffset vertAttrib 3 .FLOAT false (5 * 4) 0)

  let texCoordAttrib := uint32 (← glAsk (.GetAttribLocation obj.program "vertTexCoord")
    (fun _ => env.attribLocation obj.program "vertTexCoord"))
  gl (.EnableVertexAttribArray texCoordAttrib)
  gl (.VertexAttribPointerWithOffset texCoordAttrib 2 .FLOAT false (5 * 4) (3 * 4))

  return { obj with vao := vao }

/-- Function `newTexture`.  The picture `image.NewRGBA` allocates for a decoded image
is taken to have pixels (the one decoder the program registers, `image/png`, rejects
an image without any), so `gl.Ptr(rgba.Pix)` returns. -/
def newTexture (env : Env K) (obj : simpleObj K) (file : String) : GLM K (simpleObj K) := do
  let imgFile ← match env.openFile file with
    | .error err => goPanic err
    | .ok f => pure f
  let img ← match env.decode imgFile with
    | .error err => goPanic err
    | .ok img => pure img

  let rgba := env.newRGBA img.Bounds
  if rgba.Stride ≠ rgba.Rect.Size.X * 4 then
    goPanic "unsupported stride"
  let rgba := env.draw rgba rgba.Bounds img

  let texture ← glAsk (.GenTextures 1) env.genTexture
  gl (.ActiveTexture .TEXTURE0)
  gl (.BindTexture .TEXTURE_2D texture)
  gl (.TexParameteri .TEXTURE_2D .TEXTURE_MIN_FILTER .LINEAR)
  gl (.TexParameteri .TEXTURE_2D .TEXTURE_MAG_FILTER .LINEAR)
  gl (.TexParameteri .TEXTURE_2D .TEXTURE_WRAP_S .CLAMP_TO_EDGE)
  gl (.TexParameteri .TEXTURE_2D .TEXTURE_WRAP_T .CLAMP_TO_EDGE)
  gl (.TexImage2D
    .TEXTURE_2D
    0
    .RGBA
    (int32 rgba.Rect.Size.X)
    (int32 rgba.Rect.Size.Y)
    0
    .RGBA
    .UNSIGNED_BYTE
    rgba.Pix)

  return { obj with texture := texture }

/-- Function `render`: `mem` is the memory at the time of the call. -/
def render (mem : Memory K) (obj : simpleObj K) (vp : simpleViewPoint K) : GLM K Unit := do
  gl (.UseProgram obj.program)
  gl (.UniformMatrix4fv vp.projectionUniform 1 false vp.projection)
  gl (.UniformMatrix4fv vp.cameraUniform 1 false vp.camera)
  gl (.UniformMatrix4fv obj.modelUniform 1 false obj.model)
  gl (.BindVertexArray obj.vao)
  gl (.ActiveTexture .TEXTURE0)
  gl (.BindTexture .TEXTURE_2D obj.texture)
  let vertices ← deref mem obj.vertices
  gl (.DrawArrays .TRIANGLES 0 (int32 ((vertices.length / 5 : Nat) : Int))) -- 5: X,Y,Z,U,V

/-- The address of the variable `cubeVertices`. -/
def cubeVerticesAddr : Nat := 0

/-- The scene `main` has built when it enters the frame loop. -/
structure Scene (K : Type) where
  vp : simpleViewPoint K
  cube1 : simpleObj K
  cube2 : simpleObj K

/-- Function `main`, from `newViewPoint` to the second `newVao`: the set-up of the
viewpoint and of the two cubes. -/
def mainSetup (pi : K) (tan sqrt : K → K) (env : Env K) (mem : Memory K) : GLM K (Scene K) := do
  let vp := newViewPoint pi windowWidth windowHeight

  let cube1 : simpleObj K := simpleObj.zero
  let cube1 ← newProgram env cube1 vertexShader fragmentShader
  let (cube1, vp) ← newMatrixes tan sqrt env cube1 vp
  let cube1 ← newTexture env cube1 "square.png"
  let cube1 ← newVao env mem cube1 (some cubeVerticesAddr)

  let cube2 : simpleObj K := simpleObj.zero
  let cube2 ← newProgram env cube2 vertexShader fragmentShader
  let (cube2, vp) ← newMatrixes tan sqrt env cube2 vp
  let cube2 ← newTexture env cube2 "square.png"
  let cube2 ← newVao env mem cube2 (some cubeVerticesAddr)

  return { vp := vp, cube1 := cube1, cube2 := cube2 }

/-- The variables of the frame loop in `main`. -/
structure FrameState (K : Type) where
  angle : K
  previousTime : K
  cube1 : simpleObj K
  cube2 : simpleObj K

/-- Function `main`, the two assignments before the loop: `angle := 0.0` and
`previousTime := glfw.GetTime()`, where `now` is what `glfw.GetTime` returns. -/
def frameInit (now : K) (cube1 cube2 : simpleObj K) : FrameState K :=
  { angle := 0, previousTime := now, cube1 := cube1, cube2 := cube2 }

/-- Function `main`, the "update variables" part of one loop iteration, where `now`
is what `glfw.GetTime` returns.  The rounding of the floating-point types is kept as
two functions: `round64` takes the exact result of a `float64` operation (the
subtraction, the addition) to the value the variable gets, `round32` does so for
`float32` (the conversion `float32(angle)` and the division that follows it). -/
def updateVariablesRounded (round64 round32 sin cos : K → K) (st : FrameState K) (now : K) :
    FrameState K :=
  let time := now
  let elapsed := round64 (time - st.previousTime)
  let previousTime := time
  let angle := round64 (st.angle + elapsed)
  let cube1 :=
    { st.cube1 with model := HomogRotate3D sin cos (round32 (round32 angle / 5)) ![1, 0, 0] }
  let cube2 :=
    { st.cube2 with model := HomogRotate3D sin cos (round32 (round32 angle / 2)) ![1, 0, 0] }
  { angle := angle, previousTime := previousTime, cube1 := cube1, cube2 := cube2 }

/-- The same part of one loop iteration in exact arithmetic: no operation rounds. -/
def updateVariables (sin cos : K → K) (st : FrameState K) (now : K) : FrameState K :=
  updateVariablesRounded id id sin cos st now

/-- The frame loop's variables after the iterations that read the given timestamps. -/
def runFramesRounded (round64 round32 sin cos : K → K) (st : FrameState K) (times : List K) :
    FrameState K :=
  times.foldl (updateVariablesRounded round64 round32 sin cos) st

end Program

/-! ## Notions used to state the properties -/

/-- Whether a call is a draw call. -/
def GLCall.isDraw {K : Type} : GLCall K → Bool
  | .DrawArrays _ _ _ => true
  | _ => false

/-- The memory in which every address holds the given slice. -/
def Memory.const {K : Type} (buf : List K) : Memory K := fun _ => buf

/-- The data invariant of a viewpoint: both matrices are the ones derived from its
other fields. -/
def ViewpointInvariant {K : Type} [Field K] (tan sqrt : K → K) (vp : simpleViewPoint K) : Prop :=
  vp.projection = Perspective tan vp.fovy vp.aspect vp.near vp.far ∧
  vp.camera = LookAtV sqrt vp.eye vp.center vp.top

/-- The exact elapsed times between the clock readings of a run of the frame loop:
each reading minus the one before it, the first one minus the initial
`previousTime`. -/
def elapsedTimes {K : Type} [Field K] (previousTime : K) : List K → List K
  | [] => []
  | time :: rest => (time - previousTime) :: elapsedTimes time rest

/-- The elapsed times the frame loop stores: each difference of successive clock
readings rounded to `float64`. -/
def elapsedRounded {K : Type} [Field K] (round64 : K → K) (previousTime : K) : List K → List K
  | [] => []
  | time :: rest => round64 (time - previousTime) :: elapsedRounded round64 time rest

/-- Total correctness: run after any calls, the computation returns a value
satisfying `P` (it does not panic). -/
def GLM.Returns {K α : Type} (m : GLM K α) (P : α → Prop) : Prop :=
  ∀ tr, ∃ a, (m tr).result = .ok a ∧ P a

/-- Partial correctness: whenever the computation returns, its value satisfies `P`. -/
def GLM.Ensures {K α : Type} (m : GLM K α) (P : α → Prop) : Prop :=
  ∀ tr a, (m tr).result = .ok a → P a

/-! ## Sample inputs -/

/-- A sample outside world on which every step of the set-up succeeds: each fresh
handle is one more than the number of calls made so far, every status is `1`, the
four uniforms sit at locations `0..3` and the two attributes at `0..1` (every other
name is absent, `-1`), and every file opens and decodes to a 2 by 2 picture for which
`image.NewRGBA` allocates tightly packed rows. -/
def okEnv {K : Type} : Env K where
  createShader := fun tr _ => tr.length + 1
  shaderiv := fun _ _ _ => 1
  shaderInfoLog := fun _ _ _ => ""
  createProgram := fun tr => tr.length + 1
  programiv := fun _ _ _ => 1
  programInfoLog := fun _ _ _ => ""
  uniformLocation := fun _ name =>
    if name = "projection" then 0 else if name = "camera" then 1
    else if name = "model" then 2 else if name = "tex" then 3 else -1
  attribLocation := fun _ name =>
    if name = "vert" then 0 else if name = "vertTexCoord" then 1 else -1
  genVertexArray := fun tr => tr.length + 1
  genBuffer := fun tr => tr.length + 1
  genTexture := fun tr => tr.length + 1
  openFile := fun _ => .ok 3
  decode := fun _ => .ok ⟨⟨⟨0, 0⟩, ⟨2, 2⟩⟩, List.replicate 16 255⟩
  newRGBA := fun r => ⟨List.replicate (4 * r.Size.X * r.Size.Y).toNat 0, 4 * r.Size.X, r⟩
  draw := fun dst _ src => { dst with Pix := src.content }

/-- A sample outside world as `okEnv`, except that linking fails: the link status is
`gl.FALSE` and the log has 10 bytes. -/
def linkFailEnv {K : Type} : Env K :=
  { (okEnv : Env K) with
    programiv := fun _ _ pname => if pname = .LINK_STATUS then 0 else 10
    programInfoLog := fun _ _ _ => "link error" }

/-- A sample outside world as `okEnv`, except that the program has no uniform
`model`: its lookup answers `-1`. -/
def noModelEnv {K : Type} : Env K :=
  { (okEnv : Env K) with
    uniformLocation := fun p name =>
      if name = "model" then -1 else (okEnv : Env K).uniformLocation p name }

/-- A sample outside world as `okEnv`, except that the RGBA picture allocated for the
decoded file has rows padded by four bytes. -/
def paddedEnv {K : Type} : Env K :=
  { (okEnv : Env K) with
    newRGBA := fun r =>
      ⟨List.replicate ((4 * r.Size.X + 4) * r.Size.Y).toNat 0, 4 * r.Size.X + 4, r⟩ }

/-- A sample outside world as `okEnv`, except that the uniform locations depend on the
program: program `p` has its four uniforms at `4 * p .. 4 * p + 3`. -/
def perProgramEnv {K : Type} : Env K :=
  { (okEnv : Env K) with
    uniformLocation := fun p name => 4 * (p : Int) + (okEnv : Env K).uniformLocation p name }

/-- A sample outside world as `okEnv`, except that no shader compiles: every status
and log length read back from a shader is 0, and the log is one line. -/
def compileFailEnv {K : Type} : Env K :=
  { (okEnv : Env K) with
    shaderiv := fun _ _ _ => 0
    shaderInfoLog := fun _ _ _ => "0:1: syntax error" }

/-- A sample outside world as `okEnv`, except that no file can be opened. -/
def noFileEnv {K : Type} : Env K :=
  { (okEnv : Env K) with
    openFile := fun name => .error ("open " ++ name ++ ": no such file or directory") }

/-- A buffer of `5 * 2^31` numbers: 2147483648 vertices. -/
def hugeBuffer : List ℚ := List.replicate 10737418240 0

/-! # Theorems -/

/-! ## Running a computation -/

@[simp] theorem GLM.run_pure {K α : Type} (a : α) (tr : List (GLCall K)) :
    (pure a : GLM K α) tr = ⟨.ok a, tr⟩ := rfl

@[simp] theorem GLM.run_bind {K α β : Type} (m : GLM K α) (f : α → GLM K β)
    (tr : List (GLCall K)) :
    (m >>= f) tr = match (m tr).result with
      | .ok a => f a (m tr).trace
      | .error e => ⟨.error e, (m tr).trace⟩ := rfl

@[simp] theorem run_gl {K : Type} (c : GLCall K) (tr : List (GLCall K)) :
    gl c tr = ⟨.ok (), tr ++ [c]⟩ := rfl

@[simp] theorem run_glAsk {K α : Type} (c : GLCall K) (answer : List (GLCall K) → α)
    (tr : List (GLCall K)) : glAsk c answer tr = ⟨.ok (answer tr), tr ++ [c]⟩ := rfl

@[simp] theorem run_goPanic {K α : Type} (msg : String) (tr : List (GLCall K)) :
    (goPanic msg : GLM K α) tr = ⟨.error msg, tr⟩ := rfl

@[simp] theorem run_deref_some {K : Type} (mem : Memory K) (a : Nat) (tr : List (GLCall K)) :
    deref mem (some a) tr = ⟨.ok (mem a), tr⟩ := rfl

@[simp] theorem run_deref_none {K : Type} (mem : Memory K) (tr : List (GLCall K)) :
    deref mem none tr
      = ⟨.error "runtime error: invalid memory address or nil pointer dereference", tr⟩ := rfl

theorem Memory.const_apply {K : Type} (buf : List K) (a : Nat) : Memory.const buf a = buf := rfl

theorem returns_pure {K α : Type} {P : α → Prop} {a : α} (h : P a) :
    GLM.Returns (pure a : GLM K α) P :=
  fun _ => ⟨a, rfl, h⟩

theorem returns_bind {K α β : Type} {m : GLM K α} {f : α → GLM K β} {P : α → Prop}
    {Q : β → Prop} (hm : GLM.Returns m P) (hf : ∀ a, P a → GLM.Returns (f a) Q) :
    GLM.Returns (m >>= f) Q := by
  intro tr
  obtain ⟨a, ha, hP⟩ := hm tr
  obtain ⟨b, hb, hQ⟩ := hf a hP (m tr).trace
  refine ⟨b, ?_, hQ⟩
  rw [GLM.run_bind, ha]
  exact hb

theorem returns_gl {K : Type} {P : Unit → Prop} (c : GLCall K) (h : P ()) :
    GLM.Returns (gl c) P :=
  fun _ => ⟨(), rfl, h⟩

theorem returns_glAsk {K α : Type} {P : α → Prop} (c : GLCall K)
    (answer : List (GLCall K) → α) (h : ∀ tr, P (answer tr)) :
    GLM.Returns (glAsk c answer) P :=
  fun tr => ⟨answer tr, rfl, h tr⟩

theorem ensures_pure {K α : Type} {P : α → Prop} {a : α} (h : P a) :
    GLM.Ensures (pure a : GLM K α) P := by
  intro tr b hb
  simp only [GLM.run_pure, Except.ok.injEq] at hb
  exact hb ▸ h

theorem ensures_bind {K α β : Type} {m : GLM K α} {f : α → GLM K β} {P : α → Prop}
    {Q : β → Prop} (hm : GLM.Ensures m P) (hf : ∀ a, P a → GLM.Ensures (f a) Q) :
    GLM.Ensures (m >>= f) Q := by
  intro tr b hb
  rw [GLM.run_bind] at hb
  cases hr : (m tr).result with
  | error e => rw [hr] at hb; simp at hb
  | ok a =>
    rw [hr] at hb
    exact hf a (hm tr a hr) _ b hb

theorem ensures_true {K α : Type} (m : GLM K α) : GLM.Ensures m (fun _ => True) :=
  fun _ _ _ => True.intro

/-! ## Machine integers and the cube mesh -/

theorem int32_of_fits (n : Int) (h0 : 0 ≤ n) (h1 : n < 2 ^ 31) : int32 n = n := by
  unfold int32
  omega

set_option maxRecDepth 8000 in
theorem cubeVertices_length {K : Type} [Field K] : (cubeVertices : List K).length = 180 := by
  unfold cubeVertices
  simp only [List.length_cons, List.length_nil]

theorem hugeBuffer_length : hugeBuffer.length = 10737418240 := List.length_replicate _ _

/-! ## What each function does, call by call -/

/-- The outcome of `render` on an object that has a vertex buffer: it returns, having
made these eight calls. -/
theorem render_run {K : Type} (mem : Memory K) (obj : simpleObj K) (vp : simpleViewPoint K)
    (a : Nat) (hv : obj.vertices = some a) (tr : List (GLCall K)) :
    render mem obj vp tr = ⟨.ok (), tr ++
      [.UseProgram obj.program,
       .UniformMatrix4fv vp.projectionUniform 1 false vp.projection,
       .UniformMatrix4fv vp.cameraUniform 1 false vp.camera,
       .UniformMatrix4fv obj.modelUniform 1 false obj.model,
       .BindVertexArray obj.vao,
       .ActiveTexture .TEXTURE0,
       .BindTexture .TEXTURE_2D obj.texture,
       .DrawArrays .TRIANGLES 0 (int32 (((mem a).length / 5 : Nat) : Int))]⟩ := by
  simp [render, hv]

/-- The outcome of `newVao` for a pointer to an empty slice: it panics in `gl.Ptr`,
having made four calls. -/
theorem newVao_run_empty {K : Type} (env : Env K) (mem : Memory K) (obj : simpleObj K)
    (a : Nat) (tr : List (GLCall K)) (hne : mem a = []) :
    newVao env mem obj (some a) tr =
      ⟨.error "reflect: slice index out of range",
       tr ++
        [.GenVertexArrays 1,
         .BindVertexArray (env.genVertexArray tr),
         .GenBuffers 1,
         .BindBuffer .ARRAY_BUFFER
            (env.genBuffer
              (tr ++ [.GenVertexArrays 1, .BindVertexArray (env.genVertexArray tr)]))]⟩ := by
  simp [newVao, glPtr, hne]

/-- The outcome of `newVao` for a pointer to a non-empty slice: it returns, having
made these eleven calls. -/
theorem newVao_run {K : Type} (env : Env K) (mem : Memory K) (obj : simpleObj K) (a : Nat)
    (tr : List (GLCall K)) (hne : mem a ≠ []) :
    newVao env mem obj (some a) tr =
      ⟨.ok { obj with vertices := some a, vao := env.genVertexArray tr },
       tr ++
        [.GenVertexArrays 1,
         .BindVertexArray (env.genVertexArray tr),
         .GenBuffers 1,
         .BindBuffer .ARRAY_BUFFER
            (env.genBuffer (tr ++ [.GenVertexArrays 1, .BindVertexArray (env.genVertexArray tr)])),
         .BufferData .ARRAY_BUFFER (((mem a).length : Int) * 4) (mem a) .STATIC_DRAW,
         .GetAttribLocation obj.program "vert",
         .EnableVertexAttribArray (uint32 (env.attribLocation obj.program "vert")),
         .VertexAttribPointerWithOffset (uint32 (env.attribLocation obj.program "vert")) 3 .FLOAT
            false (5 * 4) 0,
         .GetAttribLocation obj.program "vertTexCoord",
         .EnableVertexAttribArray (uint32 (env.attribLocation obj.program "vertTexCoord")),
         .VertexAttribPointerWithOffset (uint32 (env.attribLocation obj.program "vertTexCoord")) 2
            .FLOAT false (5 * 4) (3 * 4)]⟩ := by
  simp [newVao, glPtr, hne]

/-- The outcome of `newMatrixes`: it always returns, having made these nine calls. -/
theorem newMatrixes_run {K : Type} [Field K] (tan sqrt : K → K) (env : Env K) (obj : simpleObj K)
    (vp : simpleViewPoint K) (tr : List (GLCall K)) :
    newMatrixes tan sqrt env obj vp tr =
      ⟨.ok ({ obj with
                model := Ident4
                modelUniform := env.uniformLocation obj.program "model"
                textureUniform := env.uniformLocation obj.program "tex" },
            { vp with
                projection := Perspective tan vp.fovy vp.aspect vp.near vp.far
                projectionUniform := env.uniformLocation obj.program "projection"
                camera := LookAtV sqrt vp.eye vp.center vp.top
                cameraUniform := env.uniformLocation obj.program "camera" }),
       tr ++
        [.GetUniformLocation obj.program "projection",
         .UniformMatrix4fv (env.uniformLocation obj.program "projection") 1 false
            (Perspective tan vp.fovy vp.aspect vp.near vp.far),
         .GetUniformLocation obj.program "camera",
         .UniformMatrix4fv (env.uniformLocation obj.program "camera") 1 false
            (LookAtV sqrt vp.eye vp.center vp.top),
         .GetUniformLocation obj.program "model",
         .UniformMatrix4fv (env.uniformLocation obj.program "model") 1 false Ident4,
         .GetUniformLocation obj.program "tex",
         .Uniform1i (env.uniformLocation obj.program "tex") 0,
         .BindFragDataLocation obj.program 0 "outputColor"]⟩ := by
  simp [newMatrixes]

/-- The outcome of `newTexture` once the file has opened and decoded: the stride
test decides between the panic, before any call, and the eight calls of the upload. -/
theorem newTexture_run {K : Type} (env : Env K) (obj : simpleObj K) (file : String)
    (f : Nat) (img : Image) (tr : List (GLCall K))
    (hopen : env.openFile file = .ok f) (hdecode : env.decode f = .ok img) :
    newTexture env obj file tr =
      if (env.newRGBA img.Bounds).Stride ≠ (env.newRGBA img.Bounds).Rect.Size.X * 4 then
        ⟨.error "unsupported stride", tr⟩
      else
        ⟨.ok { obj with texture := env.genTexture tr },
         tr ++
          [.GenTextures 1,
           .ActiveTexture .TEXTURE0,
           .BindTexture .TEXTURE_2D (env.genTexture tr),
           .TexParameteri .TEXTURE_2D .TEXTURE_MIN_FILTER .LINEAR,
           .TexParameteri .TEXTURE_2D .TEXTURE_MAG_FILTER .LINEAR,
           .TexParameteri .TEXTURE_2D .TEXTURE_WRAP_S .CLAMP_TO_EDGE,
           .TexParameteri .TEXTURE_2D .TEXTURE_WRAP_T .CLAMP_TO_EDGE,
           .TexImage2D .TEXTURE_2D 0 .RGBA
              (int32 (env.draw (env.newRGBA img.Bounds) (env.newRGBA img.Bounds).Bounds
                img).Rect.Size.X)
              (int32 (env.draw (env.newRGBA img.Bounds) (env.newRGBA img.Bounds).Bounds
                img).Rect.Size.Y)
              0 .RGBA .UNSIGNED_BYTE
              (env.draw (env.newRGBA img.Bounds) (env.newRGBA img.Bounds).Bounds img).Pix]⟩ := by
  unfold newTexture
  by_cases hs : (env.newRGBA img.Bounds).Stride = (env.newRGBA img.Bounds).Rect.Size.X * 4
  · simp [hopen, hdecode, hs]
  · simp [hopen, hdecode, hs]

theorem repeatNul_returns {K : Type} (n : Int) (h0 : 0 ≤ n) (h1 : n + 1 < 2 ^ 31) :
    GLM.Returns (repeatNul (int32 (n + 1)) : GLM K String)
      (fun log => log.data.getLast? = some (Char.ofNat 0)) := by
  intro tr
  have hfit : int32 (n + 1) = n + 1 := int32_of_fits _ (by omega) h1
  have hpos : ¬ (n + 1 < 0) := by omega
  have hne : ¬ ((n + 1).toNat = 0) := by omega
  refine ⟨String.mk (List.replicate (n + 1).toNat (Char.ofNat 0)), ?_, ?_⟩
  · simp [repeatNul, hfit, hpos]
  · simp [List.getLast?_replicate, hne]

theorem glStr_returns {K : Type} (str : String) (h : str.data.getLast? = some (Char.ofNat 0)) :
    GLM.Returns (glStr str : GLM K Unit) (fun _ => True) := by
  intro tr
  refine ⟨(), ?_, trivial⟩
  simp [glStr, h]

theorem compileShader_returns {K : Type} (env : Env K) (source : String) (shaderType : GLenum)
    (hcompile : ∀ tr s, env.shaderiv tr s .COMPILE_STATUS ≠ GL_FALSE) :
    GLM.Returns (compileShader env source shaderType) (fun r => ∃ shader, r = .ok shader) := by
  intro tr
  refine ⟨.ok (env.createShader tr shaderType), ?_, _, rfl⟩
  simp [compileShader, hcompile]

/-- When both shaders compile, the link status read back is `gl.FALSE` and the log
length is a sane one, `newProgram` returns normally, and returns the object as it
was passed in. -/
theorem newProgram_returns_on_link_failure {K : Type} (env : Env K) (obj : simpleObj K)
    (vertexShaderSource fragmentShaderSource : String) (tr : List (GLCall K))
    (hcompile : ∀ tr s, env.shaderiv tr s .COMPILE_STATUS ≠ GL_FALSE)
    (hlink : ∀ tr p, env.programiv tr p .LINK_STATUS = GL_FALSE)
    (hlen : ∀ tr p, 0 ≤ env.programiv tr p .INFO_LOG_LENGTH ∧
      env.programiv tr p .INFO_LOG_LENGTH + 1 < 2 ^ 31) :
    (newProgram env obj vertexShaderSource fragmentShaderSource tr).result = .ok obj := by
  have key : GLM.Returns (newProgram env obj vertexShaderSource fragmentShaderSource)
      (fun o => o = obj) := by
    unfold newProgram
    refine returns_bind (compileShader_returns env _ _ hcompile) ?_
    rintro _ ⟨vs, rfl⟩
    refine returns_bind (returns_pure (P := fun _ => True) trivial) ?_
    intro vertexShader _
    dsimp only
    refine returns_bind (compileShader_returns env _ _ hcompile) ?_
    rintro _ ⟨fs, rfl⟩
    refine returns_bind (returns_pure (P := fun _ => True) trivial) ?_
    intro fragmentShader _
    dsimp only
    refine returns_bind (returns_glAsk (P := fun _ => True) _ _ (fun _ => trivial)) ?_
    intro program _
    refine returns_bind (returns_gl (P := fun _ => True) _ trivial) ?_
    intro _ _
    refine returns_bind (returns_gl (P := fun _ => True) _ trivial) ?_
    intro _ _
    refine returns_bind (returns_gl (P := fun _ => True) _ trivial) ?_
    intro _ _
    refine returns_bind
      (returns_glAsk (P := fun status => status = GL_FALSE) _ _ (fun tr => hlink tr program)) ?_
    intro status hstatus
    dsimp only
    rw [if_pos hstatus]
    refine returns_bind
      (returns_glAsk (P := fun n => 0 ≤ n ∧ n + 1 < 2 ^ 31) _ _ (fun tr => hlen tr program)) ?_
    intro logLength hlog
    refine returns_bind (repeatNul_returns logLength hlog.1 hlog.2) ?_
    intro log hnul
    refine returns_bind (glStr_returns log hnul) ?_
    intro _ _
    refine returns_bind (returns_glAsk (P := fun _ => True) _ _ (fun _ => trivial)) ?_
    intro _ _
    exact returns_pure rfl
  obtain ⟨o, ho, rfl⟩ := key tr
  exact ho

theorem newMatrixes_ensures {K : Type} [Field K] (tan sqrt : K → K) (env : Env K)
    (obj : simpleObj K) (vp : simpleViewPoint K) :
    GLM.Ensures (newMatrixes tan sqrt env obj vp) (fun r =>
      r.1.program = obj.program ∧
      r.1.modelUniform = env.uniformLocation obj.program "model" ∧
      r.2.projectionUniform = env.uniformLocation obj.program "projection" ∧
      r.2.cameraUniform = env.uniformLocation obj.program "camera") := by
  intro tr r hr
  rw [newMatrixes_run] at hr
  simp only [Except.ok.injEq] at hr
  subst hr
  exact ⟨rfl, rfl, rfl, rfl⟩

theorem newTexture_ensures {K : Type} (env : Env K) (obj : simpleObj K) (file : String) :
    GLM.Ensures (newTexture env obj file) (fun o =>
      o.program = obj.program ∧ o.modelUniform = obj.modelUniform) := by
  intro tr o ho
  unfold newTexture at ho
  cases hopen : env.openFile file with
  | error e => simp [hopen] at ho
  | ok f =>
    cases hdecode : env.decode f with
    | error e => simp [hopen, hdecode] at ho
    | ok img =>
      by_cases hs : (env.newRGBA img.Bounds).Stride = (env.newRGBA img.Bounds).Rect.Size.X * 4
      · simp [hopen, hdecode, hs] at ho
        subst ho
        exact ⟨rfl, rfl⟩
      · simp [hopen, hdecode, hs] at ho

theorem newVao_ensures {K : Type} (env : Env K) (mem : Memory K) (obj : simpleObj K) (a : Nat) :
    GLM.Ensures (newVao env mem obj (some a)) (fun o =>
      o.program = obj.program ∧ o.modelUniform = obj.modelUniform ∧ o.vertices = some a) := by
  intro tr o ho
  by_cases hne : mem a = []
  · rw [newVao_run_empty env mem obj a tr hne] at ho
    exact absurd ho (by simp)
  · rw [newVao_run env mem obj a tr hne] at ho
    simp only [Except.ok.injEq] at ho
    subst ho
    exact ⟨rfl, rfl, rfl⟩

/-- What holds of the scene whenever the set-up in `main` succeeds. -/
theorem mainSetup_ensures {K : Type} [Field K] (pi : K) (tan sqrt : K → K) (env : Env K)
    (mem : Memory K) :
    GLM.Ensures (mainSetup pi tan sqrt env mem) (fun scene =>
      scene.vp.projectionUniform = env.uniformLocation scene.cube2.program "projection" ∧
      scene.vp.cameraUniform = env.uniformLocation scene.cube2.program "camera" ∧
      scene.cube1.modelUniform = env.uniformLocation scene.cube1.program "model" ∧
      scene.cube1.vertices = some cubeVerticesAddr) := by
  unfold mainSetup
  refine ensures_bind (ensures_true _) ?_
  intro c1 _
  refine ensures_bind (newMatrixes_ensures tan sqrt env c1 _) ?_
  rintro ⟨c1m, vp1⟩ ⟨hp1, hm1, -, -⟩
  dsimp only at hp1 hm1 ⊢
  refine ensures_bind (newTexture_ensures env c1m _) ?_
  rintro c1t ⟨hp1t, hm1t⟩
  refine ensures_bind (newVao_ensures env mem c1t _) ?_
  rintro c1v ⟨hp1v, hm1v, hv1⟩
  refine ensures_bind (ensures_true _) ?_
  intro c2 _
  refine ensures_bind (newMatrixes_ensures tan sqrt env c2 _) ?_
  rintro ⟨c2m, vp2⟩ ⟨hp2, -, hproj, hcam⟩
  dsimp only at hp2 hproj hcam ⊢
  refine ensures_bind (newTexture_ensures env c2m _) ?_
  rintro c2t ⟨hp2t, -⟩
  refine ensures_bind (newVao_ensures env mem c2t _) ?_
  rintro c2v ⟨hp2v, -, -⟩
  refine ensures_pure ?_
  dsimp only
  refine ⟨?_, ?_, ?_, hv1⟩
  · rw [hproj, hp2v, hp2t, hp2]
  · rw [hcam, hp2v, hp2t, hp2]
  · rw [hm1v, hm1t, hm1, hp1v, hp1t, hp1]

/-! ## Matrices -/

theorem toMatrix_lit {K : Type} [Field K]
    (a0 a1 a2 a3 a4 a5 a6 a7 a8 a9 a10 a11 a12 a13 a14 a15 : K) :
    Mat4.toMatrix (![a0, a1, a2, a3, a4, a5, a6, a7, a8, a9, a10, a11, a12, a13, a14, a15] : Mat4 K)
      = !![a0, a4, a8, a12; a1, a5, a9, a13; a2, a6, a10, a14; a3, a7, a11, a15] := by
  ext i j
  fin_cases i <;> fin_cases j <;> rfl

theorem block3_lit {K : Type} [Field K]
    (a0 a1 a2 a3 a4 a5 a6 a7 a8 a9 a10 a11 a12 a13 a14 a15 : K) :
    Mat4.block3 (![a0, a1, a2, a3, a4, a5, a6, a7, a8, a9, a10, a11, a12, a13, a14, a15] : Mat4 K)
      = !![a0, a4, a8; a1, a5, a9; a2, a6, a10] := by
  ext i j
  fin_cases i <;> fin_cases j <;> rfl

theorem transpose_lit3 {K : Type} [Field K] (a b c d e f g h i : K) :
    (!![a, b, c; d, e, f; g, h, i]).transpose = !![a, d, g; b, e, h; c, f, i] := by
  ext r s
  fin_cases r <;> fin_cases s <;> rfl

/-- The determinant of the perspective matrix is the product of its two scale
entries and the entry `2 * far * near / (near - far)`. -/
theorem Perspective_det {K : Type} [Field K] (tan : K → K) (fovy aspect near far : K) :
    (Perspective tan fovy aspect near far).toMatrix.det
      = (1 / tan (fovy / 2) / aspect) * (1 / tan (fovy / 2)) * (2 * far * near / (near - far)) := by
  unfold Perspective
  rw [toMatrix_lit]
  simp [Matrix.det_succ_row_zero, Fin.sum_univ_succ, Matrix.submatrix, Fin.succAbove]
  ring

theorem half_fovy_trig (fovy : ℝ) (h0 : 0 < fovy) (hpi : fovy < Real.pi) :
    Real.cos (fovy / 2) ≠ 0 ∧ Real.tan (fovy / 2) ≠ 0 := by
  have hc : 0 < Real.cos (fovy / 2) :=
    Real.cos_pos_of_mem_Ioo ⟨by linarith [Real.pi_pos], by linarith⟩
  have ht : 0 < Real.tan (fovy / 2) :=
    Real.tan_pos_of_pos_of_lt_pi_div_two (by linarith) (by linarith)
  exact ⟨hc.ne', ht.ne'⟩

/-- The rotation about the axis `(1,0,0)`, entry by entry. -/
theorem rotX_explicit {K : Type} [Field K] (sin cos : K → K) (angle : K) :
    HomogRotate3D sin cos angle ![1, 0, 0]
      = ![1, 0, 0, 0, 0, cos angle, sin angle, 0, 0, -sin angle, cos angle, 0, 0, 0, 0, 1] := by
  simp [HomogRotate3D]

/-- Over the reals the rotation about `(1,0,0)` has no translation, the bottom row
`(0,0,0,1)`, and an orthogonal upper-left block of determinant one that fixes the
axis. -/
theorem rotX_props (θ : ℝ) (m : Mat4 ℝ)
    (hm : m = HomogRotate3D Real.sin Real.cos θ ![1, 0, 0]) :
    (m 12 = 0 ∧ m 13 = 0 ∧ m 14 = 0) ∧ (m 3 = 0 ∧ m 7 = 0 ∧ m 11 = 0 ∧ m 15 = 1) ∧
    (Mat4.block3 m).transpose * Mat4.block3 m = 1 ∧ (Mat4.block3 m).det = 1 ∧
    (Mat4.block3 m).mulVec ![1, 0, 0] = ![1, 0, 0] := by
  have hsc := Real.sin_sq_add_cos_sq θ
  subst hm
  rw [rotX_explicit]
  refine ⟨⟨rfl, rfl, rfl⟩, ⟨rfl, rfl, rfl, rfl⟩, ?_, ?_, ?_⟩
  · rw [block3_lit, transpose_lit3]
    ext i j
    fin_cases i <;> fin_cases j <;>
      simp [Matrix.mul_apply, Fin.sum_univ_three, Matrix.vecHead, Matrix.vecTail] <;>
      nlinarith [hsc]
  · rw [block3_lit, Matrix.det_fin_three]
    simp
    nlinarith [hsc]
  · rw [block3_lit]
    ext i
    fin_cases i <;> simp [Matrix.mulVec, Matrix.dotProduct, Fin.sum_univ_three]

/-! ## The frame loop -/

theorem updateVariables_eq {K : Type} [Field K] (sin cos : K → K) (st : FrameState K) (now : K) :
    updateVariables sin cos st now =
      { angle := st.angle + (now - st.previousTime)
        previousTime := now
        cube1 := { st.cube1 with
          model := HomogRotate3D sin cos ((st.angle + (now - st.previousTime)) / 5) ![1, 0, 0] }
        cube2 := { st.cube2 with
          model := HomogRotate3D sin cos ((st.angle + (now - st.previousTime)) / 2) ![1, 0, 0] } } :=
  rfl

theorem runFramesRounded_snoc {K : Type} [Field K] (round64 round32 sin cos : K → K)
    (st : FrameState K) (times : List K) (time : K) :
    runFramesRounded round64 round32 sin cos st (times ++ [time])
      = updateVariablesRounded round64 round32 sin cos
          (runFramesRounded round64 round32 sin cos st times) time := by
  simp [runFramesRounded, List.foldl_append]

/-- The angle after a run is the running sum, each addition rounded, of the elapsed
times the loop stored. -/
theorem runFramesRounded_angle {K : Type} [Field K] (round64 round32 sin cos : K → K)
    (times : List K) :
    ∀ st : FrameState K,
      (runFramesRounded round64 round32 sin cos st times).angle
        = (elapsedRounded round64 st.previousTime times).foldl
            (fun sum elapsed => round64 (sum + elapsed)) st.angle := by
  induction times with
  | nil => intro st; rfl
  | cons t ts ih =>
    intro st
    have h := ih (updateVariablesRounded round64 round32 sin cos st t)
    simp only [runFramesRounded, List.foldl_cons] at h ⊢
    rw [h]
    rfl

/-- When no `float64` operation of a run rounds, the angle stays the latest clock
reading minus the reading at which the loop was entered. -/
theorem runFramesRounded_exact {K : Type} [Field K] (round64 round32 sin cos : K → K)
    (now : K) (times : List K) :
    ∀ st : FrameState K, st.angle = st.previousTime - now →
      (∀ x ∈ elapsedTimes st.previousTime times, round64 x = x) →
      (∀ t ∈ times, round64 (t - now) = t - now) →
      (runFramesRounded round64 round32 sin cos st times).angle
        = (runFramesRounded round64 round32 sin cos st times).previousTime - now := by
  induction times with
  | nil => intro st hst _ _; exact hst
  | cons t ts ih =>
    intro st hst hdiff hsum
    have hd : round64 (t - st.previousTime) = t - st.previousTime :=
      hdiff _ (by simp [elapsedTimes])
    have hs : round64 (t - now) = t - now := hsum t (by simp)
    have hstep : (updateVariablesRounded round64 round32 sin cos st t).angle
        = (updateVariablesRounded round64 round32 sin cos st t).previousTime - now := by
      show round64 (st.angle + round64 (t - st.previousTime)) = t - now
      rw [hd, hst]
      have : st.previousTime - now + (t - st.previousTime) = t - now := by ring
      rw [this, hs]
    have h := ih (updateVariablesRounded round64 round32 sin cos st t) hstep
      (fun x hx => hdiff x (by
        have : (updateVariablesRounded round64 round32 sin cos st t).previousTime = t := rfl
        rw [this] at hx
        simp [elapsedTimes, hx]))
      (fun u hu => hsum u (by simp [hu]))
    simpa [runFramesRounded] using h

theorem elapsedTimes_sum {K : Type} [Field K] (times : List K) :
    ∀ (previousTime time : K),
      (elapsedTimes previousTime (times ++ [time])).sum = time - previousTime := by
  induction times with
  | nil => intro t0 time; simp [elapsedTimes]
  | cons t ts ih =>
    intro t0 time
    simp [elapsedTimes, ih]

/-! ## The claims -/

/-- C1 (as amended).  For every object whose vertex buffer has a length that is a
multiple of 5 and holds fewer than `2^31` vertices, `render` returns having issued
exactly one draw call, `DrawArrays(TRIANGLES, 0, len / 5)`: a triangle list from
vertex 0 whose vertex count is the length, at the time of the call, of the slice
the object points to, divided by 5, times 5 giving back the length. -/
theorem render_vertex_count {K : Type} (mem : Memory K) (obj : simpleObj K)
    (vp : simpleViewPoint K) (a : Nat) (tr : List (GLCall K))
    (hv : obj.vertices = some a) (h5 : (mem a).length % 5 = 0)
    (hfit : (mem a).length / 5 < 2 ^ 31) :
    (render mem obj vp tr).result = .ok () ∧
    (∃ calls, (render mem obj vp tr).trace = tr ++ calls ∧
      calls.filter GLCall.isDraw
        = [.DrawArrays .TRIANGLES 0 (((mem a).length / 5 : Nat) : Int)]) ∧
    5 * ((mem a).length / 5) = (mem a).length := by
  rw [render_run mem obj vp a hv tr]
  refine ⟨rfl, ⟨_, rfl, ?_⟩, by omega⟩
  rw [int32_of_fits _ (by positivity) (by exact_mod_cast hfit)]
  rfl

/-- C1, witness: the cube mesh has 180 floats, and an object pointing to it is drawn
with one draw call of 36 vertices. -/
theorem render_vertex_count_cube :
    (cubeVertices : List ℚ).length = 180 ∧
    (render (Memory.const (cubeVertices : List ℚ))
        { (simpleObj.zero : simpleObj ℚ) with vertices := some cubeVerticesAddr }
        simpleViewPoint.zero []).result = .ok () ∧
    ∃ calls,
      (render (Memory.const (cubeVertices : List ℚ))
        { (simpleObj.zero : simpleObj ℚ) with vertices := some cubeVerticesAddr }
        simpleViewPoint.zero []).trace = [] ++ calls ∧
      calls.filter GLCall.isDraw = [.DrawArrays .TRIANGLES 0 36] := by
  have h := render_vertex_count (Memory.const (cubeVertices : List ℚ))
    { (simpleObj.zero : simpleObj ℚ) with vertices := some cubeVerticesAddr }
    simpleViewPoint.zero cubeVerticesAddr [] rfl
    (by rw [Memory.const_apply, cubeVertices_length])
    (by rw [Memory.const_apply, cubeVertices_length]; decide)
  obtain ⟨h1, ⟨calls, h2, h3⟩, -⟩ := h
  rw [Memory.const_apply, cubeVertices_length] at h3
  exact ⟨cubeVertices_length, h1, calls, h2, h3⟩

/-- C1, counterexample: a buffer of 10737418240 floats has a length that is a
multiple of 5, and the one draw call `render` issues for it has the vertex count
-2147483648, which is not its length divided by 5 (2147483648): the conversion
`int32(len/5)` wraps. -/
theorem render_vertex_count_wraps :
    hugeBuffer.length % 5 = 0 ∧
    (render (Memory.const hugeBuffer)
        { (simpleObj.zero : simpleObj ℚ) with vertices := some cubeVerticesAddr }
        simpleViewPoint.zero).issued.filter GLCall.isDraw
      = [.DrawArrays .TRIANGLES 0 (-2147483648)] ∧
    ((hugeBuffer.length / 5 : Nat) : Int) ≠ -2147483648 := by
  have h32 : int32 ((10737418240 / 5 : Nat) : Int) = -2147483648 := by decide
  refine ⟨by rw [hugeBuffer_length], ?_, by rw [hugeBuffer_length]; decide⟩
  unfold GLM.issued
  rw [render_run _ _ _ cubeVerticesAddr rfl, Memory.const_apply, hugeBuffer_length, h32]
  rfl

/-- C2 (as amended).  No length validation exists: for every vertex buffer whose
length is not a multiple of 5, `newVao` returns normally, having recorded the pointer
and uploaded the whole buffer (`4 * len` bytes), and `render` of the resulting object
returns normally having issued exactly one draw call, whose vertex count is
`int32(len / 5)` with the division rounded down, so that the last `len % 5` floats
belong to no drawn vertex. -/
theorem unaligned_buffer_is_accepted {K : Type} (env : Env K) (mem : Memory K)
    (obj : simpleObj K) (vp : simpleViewPoint K) (a : Nat) (tr tr' : List (GLCall K))
    (h5 : (mem a).length % 5 ≠ 0) :
    ∃ obj', (newVao env mem obj (some a) tr).result = .ok obj' ∧
      obj'.vertices = some a ∧
      GLCall.BufferData .ARRAY_BUFFER (((mem a).length : Int) * 4) (mem a) .STATIC_DRAW
        ∈ (newVao env mem obj (some a) tr).trace ∧
      (render mem obj' vp tr').result = .ok () ∧
      (∃ calls, (render mem obj' vp tr').trace = tr' ++ calls ∧
        calls.filter GLCall.isDraw
          = [.DrawArrays .TRIANGLES 0 (int32 (((mem a).length / 5 : Nat) : Int))]) ∧
      5 * ((mem a).length / 5) < (mem a).length := by
  have hne : mem a ≠ [] := by
    intro h
    rw [h] at h5
    exact h5 rfl
  refine ⟨{ obj with vertices := some a, vao := env.genVertexArray tr }, ?_, rfl, ?_, ?_, ?_, ?_⟩
  · rw [newVao_run env mem obj a tr hne]
  · rw [newVao_run env mem obj a tr hne]; simp
  · rw [render_run mem _ vp a rfl tr']
  · rw [render_run mem _ vp a rfl tr']
    exact ⟨_, rfl, rfl⟩
  · omega

/-- C2, witness: a buffer of seven floats is taken by `newVao` and by `render`. -/
theorem unaligned_buffer_is_accepted_seven :
    ∃ obj', (newVao (okEnv : Env ℚ) (Memory.const [1, 2, 3, 4, 5, 6, 7]) simpleObj.zero
        (some cubeVerticesAddr) []).result = .ok obj' ∧
      (render (Memory.const [1, 2, 3, 4, 5, 6, 7]) obj' simpleViewPoint.zero []).result
        = .ok () := by
  obtain ⟨obj', h1, -, -, h2, -⟩ := unaligned_buffer_is_accepted (okEnv : Env ℚ)
    (Memory.const [1, 2, 3, 4, 5, 6, 7]) simpleObj.zero simpleViewPoint.zero cubeVerticesAddr
    [] [] (by decide)
  exact ⟨obj', h1, h2⟩

/-- C2, counterexample: seven floats are not a multiple of 5, yet `newVao` returns
normally, uploading all 28 bytes, and `render` issues a draw call of one vertex for
the object: the buffer is not rejected. -/
theorem seven_floats_are_uploaded_and_drawn :
    ([1, 2, 3, 4, 5, 6, 7] : List ℚ).length % 5 ≠ 0 ∧
    (newVao (okEnv : Env ℚ) (Memory.const [1, 2, 3, 4, 5, 6, 7]) simpleObj.zero
        (some cubeVerticesAddr) []).result
      = .ok { (simpleObj.zero : simpleObj ℚ) with vertices := some cubeVerticesAddr, vao := 1 } ∧
    GLCall.BufferData .ARRAY_BUFFER 28 [1, 2, 3, 4, 5, 6, 7] .STATIC_DRAW
      ∈ (newVao (okEnv : Env ℚ) (Memory.const [1, 2, 3, 4, 5, 6, 7]) simpleObj.zero
          (some cubeVerticesAddr) []).trace ∧
    (render (Memory.const [1, 2, 3, 4, 5, 6, 7])
        { (simpleObj.zero : simpleObj ℚ) with vertices := some cubeVerticesAddr, vao := 1 }
        simpleViewPoint.zero).issued.filter GLCall.isDraw
      = [.DrawArrays .TRIANGLES 0 1] := by
  refine ⟨by decide, ?_, ?_, ?_⟩
  · rw [newVao_run _ _ _ _ _ (by simp [Memory.const])]; rfl
  · rw [newVao_run _ _ _ _ _ (by simp [Memory.const])]; simp [Memory.const]
  · unfold GLM.issued
    rw [render_run _ _ _ cubeVerticesAddr rfl]
    rfl

/-- C3 (as amended).  For every run of the frame loop entered at clock reading `now`
with angle 0, whatever the rounding of `float64` and `float32` is: if no operation of
the run rounds, that is every difference of successive clock readings and every
reading minus `now` is left unchanged by `round64`, and at the latest reading `time`
the values `time - now`, `(time - now) / 5` and `(time - now) / 2` are left unchanged
by `round32`, then after the iteration that reads `time` the accumulated angle is the
sum of the elapsed times so far, which is `time - now`, cube1 has the model
`HomogRotate3D(angle/5, (1,0,0))` and cube2 the model
`HomogRotate3D(angle/2, (1,0,0))`. -/
theorem angle_is_running_sum_when_exact {K : Type} [Field K]
    (round64 round32 sin cos : K → K) (now : K) (cube1 cube2 : simpleObj K)
    (times : List K) (time : K)
    (hdiff : ∀ x ∈ elapsedTimes now (times ++ [time]), round64 x = x)
    (hsum : ∀ t ∈ times ++ [time], round64 (t - now) = t - now)
    (h32 : round32 (time - now) = time - now)
    (h5 : round32 ((time - now) / 5) = (time - now) / 5)
    (h2 : round32 ((time - now) / 2) = (time - now) / 2) :
    (runFramesRounded round64 round32 sin cos (frameInit now cube1 cube2)
        (times ++ [time])).angle = (elapsedTimes now (times ++ [time])).sum ∧
    (runFramesRounded round64 round32 sin cos (frameInit now cube1 cube2)
        (times ++ [time])).angle = time - now ∧
    (runFramesRounded round64 round32 sin cos (frameInit now cube1 cube2)
        (times ++ [time])).previousTime = time ∧
    (runFramesRounded round64 round32 sin cos (frameInit now cube1 cube2)
        (times ++ [time])).cube1.model
      = HomogRotate3D sin cos
          ((runFramesRounded round64 round32 sin cos (frameInit now cube1 cube2)
            (times ++ [time])).angle / 5) ![1, 0, 0] ∧
    (runFramesRounded round64 round32 sin cos (frameInit now cube1 cube2)
        (times ++ [time])).cube2.model
      = HomogRotate3D sin cos
          ((runFramesRounded round64 round32 sin cos (frameInit now cube1 cube2)
            (times ++ [time])).angle / 2) ![1, 0, 0] := by
  have hprev : (runFramesRounded round64 round32 sin cos (frameInit now cube1 cube2)
      (times ++ [time])).previousTime = time := by
    rw [runFramesRounded_snoc]; rfl
  have hangle : (runFramesRounded round64 round32 sin cos (frameInit now cube1 cube2)
      (times ++ [time])).angle = time - now := by
    have h := runFramesRounded_exact round64 round32 sin cos now (times ++ [time])
      (frameInit now cube1 cube2) (by simp [frameInit]) hdiff hsum
    rw [h, hprev]
  have hmodel1 : (runFramesRounded round64 round32 sin cos (frameInit now cube1 cube2)
      (times ++ [time])).cube1.model
        = HomogRotate3D sin cos (round32 (round32
            (runFramesRounded round64 round32 sin cos (frameInit now cube1 cube2)
              (times ++ [time])).angle / 5)) ![1, 0, 0] := by
    rw [runFramesRounded_snoc]; rfl
  have hmodel2 : (runFramesRounded round64 round32 sin cos (frameInit now cube1 cube2)
      (times ++ [time])).cube2.model
        = HomogRotate3D sin cos (round32 (round32
            (runFramesRounded round64 round32 sin cos (frameInit now cube1 cube2)
              (times ++ [time])).angle / 2)) ![1, 0, 0] := by
    rw [runFramesRounded_snoc]; rfl
  refine ⟨?_, hangle, hprev, ?_, ?_⟩
  · rw [hangle, elapsedTimes_sum]
  · rw [hmodel1, hangle, h32, h5]
  · rw [hmodel2, hangle, h32, h2]

/-- C3, witness: with the rounding of `float64` and `float32`, the loop entered at
clock reading 0 and reading the clock at 2 and at 5: no operation rounds, the angle
is 5, cube1 is rotated by 1 and cube2 by 5/2. -/
theorem angle_is_running_sum_when_exact_example :
    (∀ x ∈ elapsedTimes (0 : ℚ) ([2] ++ [5]), float64 x = x) ∧
    (∀ t ∈ [(2 : ℚ)] ++ [5], float64 (t - 0) = t - 0) ∧
    ∀ sin cos : ℚ → ℚ,
      (runFramesRounded float64 float32 sin cos (frameInit 0 simpleObj.zero simpleObj.zero)
          ([2] ++ [5])).angle = 5 - 0 ∧
      (runFramesRounded float64 float32 sin cos (frameInit 0 simpleObj.zero simpleObj.zero)
          ([2] ++ [5])).cube1.model
        = HomogRotate3D sin cos
            ((runFramesRounded float64 float32 sin cos
              (frameInit 0 simpleObj.zero simpleObj.zero) ([2] ++ [5])).angle / 5) ![1, 0, 0] := by
  have hdiff : ∀ x ∈ elapsedTimes (0 : ℚ) ([2] ++ [5]), float64 x = x := by decide!
  have hsum : ∀ t ∈ [(2 : ℚ)] ++ [5], float64 (t - 0) = t - 0 := by decide!
  refine ⟨hdiff, hsum, fun sin cos => ?_⟩
  have h := angle_is_running_sum_when_exact float64 float32 sin cos 0 simpleObj.zero
    simpleObj.zero [2] 5 hdiff hsum (by decide!) (by decide!) (by decide!)
  exact ⟨h.2.1, h.2.2.2.1⟩

/-- C3, counterexample: the loop is entered at clock reading 0 and reads the clock at
16777216 and at 16777217, two positive deltas.  The accumulated angle is 16777217,
but cube1 is rotated by 3355443.25 (13421773/4), not by angle/5 = 3355443.4, and
cube2 by 8388608, not by angle/2 = 8388608.5: `float32(angle)` is 16777216. -/
theorem rotation_angles_are_rounded :
    elapsedTimes (0 : ℚ) [16777216, 16777217] = [16777216 - 0, 16777217 - 16777216] ∧
    float32 16777217 = 16777216 ∧
    (13421773 / 4 : ℚ) ≠ 16777217 / 5 ∧ (8388608 : ℚ) ≠ 16777217 / 2 ∧
    ∀ sin cos : ℚ → ℚ,
      (runFramesRounded float64 float32 sin cos (frameInit 0 simpleObj.zero simpleObj.zero)
          [16777216, 16777217]).angle = 16777217 ∧
      (runFramesRounded float64 float32 sin cos (frameInit 0 simpleObj.zero simpleObj.zero)
          [16777216, 16777217]).cube1.model
        = HomogRotate3D sin cos (13421773 / 4) ![1, 0, 0] ∧
      (runFramesRounded float64 float32 sin cos (frameInit 0 simpleObj.zero simpleObj.zero)
          [16777216, 16777217]).cube2.model
        = HomogRotate3D sin cos 8388608 ![1, 0, 0] := by
  have hangle : (elapsedRounded float64 (0 : ℚ) [16777216, 16777217]).foldl
      (fun sum elapsed => float64 (sum + elapsed)) 0 = 16777217 := by decide!
  have h5 : float32 (float32 16777217 / 5) = 13421773 / 4 := by decide!
  have h2 : float32 (float32 16777217 / 2) = 8388608 := by decide!
  refine ⟨rfl, by decide!, by norm_num, by norm_num, fun sin cos => ?_⟩
  have ha : (runFramesRounded float64 float32 sin cos
      (frameInit 0 simpleObj.zero simpleObj.zero) [16777216, 16777217]).angle = 16777217 :=
    (runFramesRounded_angle float64 float32 sin cos [16777216, 16777217]
      (frameInit 0 simpleObj.zero simpleObj.zero)).trans hangle
  have hm1 : (runFramesRounded float64 float32 sin cos
      (frameInit 0 simpleObj.zero simpleObj.zero) [16777216, 16777217]).cube1.model
        = HomogRotate3D sin cos (float32 (float32
            (runFramesRounded float64 float32 sin cos
              (frameInit 0 simpleObj.zero simpleObj.zero) [16777216, 16777217]).angle / 5))
            ![1, 0, 0] := rfl
  have hm2 : (runFramesRounded float64 float32 sin cos
      (frameInit 0 simpleObj.zero simpleObj.zero) [16777216, 16777217]).cube2.model
        = HomogRotate3D sin cos (float32 (float32
            (runFramesRounded float64 float32 sin cos
              (frameInit 0 simpleObj.zero simpleObj.zero) [16777216, 16777217]).angle / 2))
            ![1, 0, 0] := rfl
  refine ⟨ha, ?_, ?_⟩
  · rw [hm1, ha, h5]
  · rw [hm2, ha, h2]

/-- C4.  Exact real arithmetic.  Entering the loop at any clock reading with angle 0
and reading the clock 5.0 seconds later in the first iteration, cube1's model is
`HomogRotate3D(1, (1,0,0))` and cube2's is `HomogRotate3D(5/2, (1,0,0))`; each of the
two matrices has a zero translation column, the bottom row `(0,0,0,1)`, and an
upper-left 3 by 3 block that is orthogonal, has determinant 1 and fixes the axis
`(1,0,0)`. -/
theorem five_second_step (now : ℝ) (cube1 cube2 : simpleObj ℝ) :
    (updateVariables Real.sin Real.cos (frameInit now cube1 cube2) (now + 5)).cube1.model
        = HomogRotate3D Real.sin Real.cos 1 ![1, 0, 0] ∧
    (updateVariables Real.sin Real.cos (frameInit now cube1 cube2) (now + 5)).cube2.model
        = HomogRotate3D Real.sin Real.cos (5 / 2) ![1, 0, 0] ∧
    ∀ m ∈ [(updateVariables Real.sin Real.cos (frameInit now cube1 cube2) (now + 5)).cube1.model,
           (updateVariables Real.sin Real.cos (frameInit now cube1 cube2) (now + 5)).cube2.model],
      (m 12 = 0 ∧ m 13 = 0 ∧ m 14 = 0) ∧ (m 3 = 0 ∧ m 7 = 0 ∧ m 11 = 0 ∧ m 15 = 1) ∧
      (Mat4.block3 m).transpose * Mat4.block3 m = 1 ∧ (Mat4.block3 m).det = 1 ∧
      (Mat4.block3 m).mulVec ![1, 0, 0] = ![1, 0, 0] := by
  have h1 : (updateVariables Real.sin Real.cos (frameInit now cube1 cube2) (now + 5)).cube1.model
        = HomogRotate3D Real.sin Real.cos 1 ![1, 0, 0] := by
    simp [updateVariables_eq, frameInit]
  have h2 : (updateVariables Real.sin Real.cos (frameInit now cube1 cube2) (now + 5)).cube2.model
        = HomogRotate3D Real.sin Real.cos (5 / 2) ![1, 0, 0] := by
    simp [updateVariables_eq, frameInit]
  refine ⟨h1, h2, ?_⟩
  intro m hmem
  simp only [List.mem_cons, List.mem_singleton, List.not_mem_nil, or_false] at hmem
  rcases hmem with hm | hm
  · exact rotX_props 1 m (hm.trans h1)
  · exact rotX_props (5 / 2) m (hm.trans h2)

/-- C5.  Once the texture file has opened and decoded, `newTexture` tests the row
stride of the RGBA picture it obtains for the decoded one against `width * 4`: if they
differ it panics with "unsupported stride" having made no OpenGL call at all (no
texture generated, no `TexImage2D`); if they are equal it does not panic: it returns
the object with its new texture, having made the eight calls of the upload, the last
of them `TexImage2D`. -/
theorem newTexture_stride_guard {K : Type} (env : Env K) (obj : simpleObj K) (file : String)
    (f : Nat) (img : Image) (tr : List (GLCall K))
    (hopen : env.openFile file = .ok f) (hdecode : env.decode f = .ok img) :
    ((env.newRGBA img.Bounds).Stride ≠ (env.newRGBA img.Bounds).Rect.Size.X * 4 ∧
      newTexture env obj file tr = ⟨.error "unsupported stride", tr⟩) ∨
    ((env.newRGBA img.Bounds).Stride = (env.newRGBA img.Bounds).Rect.Size.X * 4 ∧
      newTexture env obj file tr =
        ⟨.ok { obj with texture := env.genTexture tr },
         tr ++
          [.GenTextures 1,
           .ActiveTexture .TEXTURE0,
           .BindTexture .TEXTURE_2D (env.genTexture tr),
           .TexParameteri .TEXTURE_2D .TEXTURE_MIN_FILTER .LINEAR,
           .TexParameteri .TEXTURE_2D .TEXTURE_MAG_FILTER .LINEAR,
           .TexParameteri .TEXTURE_2D .TEXTURE_WRAP_S .CLAMP_TO_EDGE,
           .TexParameteri .TEXTURE_2D .TEXTURE_WRAP_T .CLAMP_TO_EDGE,
           .TexImage2D .TEXTURE_2D 0 .RGBA
              (int32 (env.draw (env.newRGBA img.Bounds) (env.newRGBA img.Bounds).Bounds
                img).Rect.Size.X)
              (int32 (env.draw (env.newRGBA img.Bounds) (env.newRGBA img.Bounds).Bounds
                img).Rect.Size.Y)
              0 .RGBA .UNSIGNED_BYTE
              (env.draw (env.newRGBA img.Bounds) (env.newRGBA img.Bounds).Bounds img).Pix]⟩) := by
  have h := newTexture_run env obj file f img tr hopen hdecode
  by_cases hs : (env.newRGBA img.Bounds).Stride = (env.newRGBA img.Bounds).Rect.Size.X * 4
  · right
    rw [if_neg (not_not.mpr hs)] at h
    exact ⟨hs, h⟩
  · left
    rw [if_pos hs] at h
    exact ⟨hs, h⟩

/-- C5, witness: with rows padded by four bytes `newTexture` panics before any call;
with tightly packed rows it returns the object with texture 1. -/
theorem newTexture_stride_guard_examples :
    (newTexture (paddedEnv : Env ℚ) simpleObj.zero "square.png" []
        = ⟨.error "unsupported stride", []⟩) ∧
    (newTexture (okEnv : Env ℚ) simpleObj.zero "square.png" []).result
        = .ok { (simpleObj.zero : simpleObj ℚ) with texture := 1 } := by
  have h1 := newTexture_stride_guard (paddedEnv : Env ℚ) simpleObj.zero "square.png" 3
    ⟨⟨⟨0, 0⟩, ⟨2, 2⟩⟩, List.replicate 16 255⟩ [] rfl rfl
  have h2 := newTexture_stride_guard (okEnv : Env ℚ) simpleObj.zero "square.png" 3
    ⟨⟨⟨0, 0⟩, ⟨2, 2⟩⟩, List.replicate 16 255⟩ [] rfl rfl
  refine ⟨?_, ?_⟩
  · rcases h1 with ⟨-, h⟩ | ⟨hs, -⟩
    · exact h
    · exact absurd hs (by decide)
  · rcases h2 with ⟨hs, -⟩ | ⟨-, h⟩
    · exact absurd rfl hs
    · rw [h]; rfl

/-- C6, the code at the failing input: both shaders compile, linking fails (the link
status read back is `gl.FALSE`, the log has 10 bytes), and `newProgram` returns
normally with the object unchanged, its program handle still 0: no error is raised
and the log that was fetched is dropped. -/
theorem newProgram_link_failure_is_silent :
    (linkFailEnv : Env ℚ).programiv [] 0 .LINK_STATUS = GL_FALSE ∧
    (newProgram (linkFailEnv : Env ℚ) simpleObj.zero vertexShader fragmentShader []).result
      = .ok simpleObj.zero ∧
    (simpleObj.zero : simpleObj ℚ).program = 0 :=
  ⟨rfl,
   newProgram_returns_on_link_failure linkFailEnv simpleObj.zero vertexShader
     fragmentShader []
     (fun _ _ => by simp [linkFailEnv, okEnv, GL_FALSE])
     (fun _ _ => by simp [linkFailEnv, GL_FALSE])
     (fun _ _ => by simp [linkFailEnv]),
   rfl⟩

/-- C7 (as amended).  `newMatrixes` never fails and tests no location: it always
returns, having stored in the viewpoint (projection, camera) and in the object (model,
tex) whatever location each of the four lookups yields, the not-found location -1
included, and having uploaded to each of those locations. -/
theorem newMatrixes_stores_any_location {K : Type} [Field K] (tan sqrt : K → K) (env : Env K)
    (obj : simpleObj K) (vp : simpleViewPoint K) (tr : List (GLCall K)) :
    ∃ obj' vp' calls, newMatrixes tan sqrt env obj vp tr = ⟨.ok (obj', vp'), tr ++ calls⟩ ∧
      vp'.projectionUniform = env.uniformLocation obj.program "projection" ∧
      vp'.cameraUniform = env.uniformLocation obj.program "camera" ∧
      obj'.modelUniform = env.uniformLocation obj.program "model" ∧
      obj'.textureUniform = env.uniformLocation obj.program "tex" ∧
      GLCall.UniformMatrix4fv (env.uniformLocation obj.program "projection") 1 false
          vp'.projection ∈ calls ∧
      GLCall.UniformMatrix4fv (env.uniformLocation obj.program "camera") 1 false
          vp'.camera ∈ calls ∧
      GLCall.UniformMatrix4fv (env.uniformLocation obj.program "model") 1 false
          obj'.model ∈ calls ∧
      GLCall.Uniform1i (env.uniformLocation obj.program "tex") 0 ∈ calls := by
  refine ⟨_, _, _, newMatrixes_run tan sqrt env obj vp tr, rfl, rfl, rfl, rfl, ?_, ?_, ?_, ?_⟩ <;>
    simp

/-- C7, counterexample: the program has no uniform `model` (its lookup yields -1),
and `newMatrixes` returns normally with -1 stored as the object's model handle. -/
theorem newMatrixes_accepts_missing_model :
    (noModelEnv : Env ℝ).uniformLocation 0 "model" = -1 ∧
    ∃ obj' vp', (newMatrixes Real.tan Real.sqrt noModelEnv simpleObj.zero
        (newViewPoint Real.pi windowWidth windowHeight) []).result = .ok (obj', vp') ∧
      obj'.modelUniform = -1 := by
  have h := newMatrixes_run Real.tan Real.sqrt noModelEnv simpleObj.zero
    (newViewPoint Real.pi windowWidth windowHeight) []
  exact ⟨rfl, _, _, congrArg Outcome.result h, rfl⟩

/-- C8.  Exact real arithmetic.  For a viewpoint whose aspect is `width / height` with
both positive, whose `fovy` lies strictly between 0 and pi and whose clip distances
satisfy `0 < near < far`, `newMatrixes` returns a viewpoint whose projection matrix is
`Perspective(fovy, width / height, near, far)`; no division made in computing it is by
zero (the cosine and the tangent of `fovy / 2`, the aspect and `near - far` are all
non-zero), so every entry is finite, and its determinant is not zero. -/
theorem projection_finite_invertible (vp : simpleViewPoint ℝ) (width height : Int)
    (hw : 0 < width) (hh : 0 < height) (hasp : vp.aspect = (width : ℝ) / (height : ℝ))
    (hf0 : 0 < vp.fovy) (hfpi : vp.fovy < Real.pi) (hn : 0 < vp.near) (hnf : vp.near < vp.far)
    (env : Env ℝ) (obj : simpleObj ℝ) (tr : List (GLCall ℝ)) :
    ∃ obj' vp', (newMatrixes Real.tan Real.sqrt env obj vp tr).result = .ok (obj', vp') ∧
      vp'.projection = Perspective Real.tan vp.fovy ((width : ℝ) / (height : ℝ)) vp.near vp.far ∧
      Real.cos (vp.fovy / 2) ≠ 0 ∧ Real.tan (vp.fovy / 2) ≠ 0 ∧
      (width : ℝ) / (height : ℝ) ≠ 0 ∧ vp.near - vp.far ≠ 0 ∧
      vp'.projection.toMatrix.det ≠ 0 := by
  obtain ⟨hc, ht⟩ := half_fovy_trig vp.fovy hf0 hfpi
  have hwR : (0 : ℝ) < (width : ℝ) := by exact_mod_cast hw
  have hhR : (0 : ℝ) < (height : ℝ) := by exact_mod_cast hh
  have ha : (width : ℝ) / (height : ℝ) ≠ 0 := (div_pos hwR hhR).ne'
  have hd : vp.near - vp.far ≠ 0 := by
    have : vp.near - vp.far < 0 := by linarith
    exact this.ne
  have hfar : (0 : ℝ) < vp.far := by linarith
  refine ⟨_, _, by rw [newMatrixes_run], ?_, hc, ht, ha, hd, ?_⟩
  · simp [hasp]
  · simp only [hasp]
    rw [Perspective_det]
    have h2 : (2 : ℝ) * vp.far * vp.near ≠ 0 := by positivity
    positivity

/-- C8, witness: the program's own viewpoint, 800 by 600, 45 degrees, near 0.1, far
10. -/
theorem projection_finite_invertible_program :
    ∃ obj' vp', (newMatrixes Real.tan Real.sqrt okEnv simpleObj.zero
        (newViewPoint Real.pi windowWidth windowHeight) []).result = .ok (obj', vp') ∧
      vp'.projection
        = Perspective Real.tan (DegToRad Real.pi 45) ((800 : ℝ) / 600) (1 / 10) 10 ∧
      vp'.projection.toMatrix.det ≠ 0 := by
  have hfovy : (newViewPoint Real.pi windowWidth windowHeight).fovy = 45 * Real.pi / 180 := rfl
  have hnear : (newViewPoint Real.pi windowWidth windowHeight).near = 1 / 10 := rfl
  have hfar : (newViewPoint Real.pi windowWidth windowHeight).far = 10 := rfl
  obtain ⟨obj', vp', h1, h2, -, -, -, -, h3⟩ := projection_finite_invertible
    (newViewPoint Real.pi windowWidth windowHeight) windowWidth windowHeight
    (by decide) (by decide) rfl
    (by rw [hfovy]; positivity)
    (by rw [hfovy]; linarith [Real.pi_pos])
    (by rw [hnear]; norm_num)
    (by rw [hnear, hfar]; norm_num)
    okEnv simpleObj.zero []
  refine ⟨obj', vp', h1, ?_, h3⟩
  rw [h2]
  simp [newViewPoint, windowWidth, windowHeight]

/-- C9 (as amended).  The viewpoint `newViewPoint` returns holds the derivation
parameters only: its projection and camera matrices are the zero matrix.  The
invariant is established by `newMatrixes`: for any viewpoint passed in it returns one
whose projection is `Perspective(fovy, aspect, near, far)` and whose camera is
`LookAtV(eye, center, top)` of its own fields, these seven fields being unchanged. -/
theorem newMatrixes_establishes_invariant {K : Type} [Field K] (pi : K) (tan sqrt : K → K)
    (width height : Int) (env : Env K) (obj : simpleObj K) (vp : simpleViewPoint K)
    (tr : List (GLCall K)) :
    (newViewPoint pi width height).projection = zeroMat4 ∧
    (newViewPoint pi width height).camera = zeroMat4 ∧
    ∃ obj' vp', (newMatrixes tan sqrt env obj vp tr).result = .ok (obj', vp') ∧
      ViewpointInvariant tan sqrt vp' ∧
      vp'.fovy = vp.fovy ∧ vp'.aspect = vp.aspect ∧ vp'.near = vp.near ∧ vp'.far = vp.far ∧
      vp'.eye = vp.eye ∧ vp'.center = vp.center ∧ vp'.top = vp.top := by
  have h := newMatrixes_run tan sqrt env obj vp tr
  exact ⟨rfl, rfl, _, _, congrArg Outcome.result h, ⟨rfl, rfl⟩, rfl, rfl, rfl, rfl, rfl, rfl, rfl⟩

/-- C9, counterexample: the viewpoint `newViewPoint(800, 600)` returns does not
satisfy the invariant: entry 11 of its projection matrix is 0, entry 11 of the
perspective matrix of its fields is -1. -/
theorem newViewPoint_matrices_not_derived :
    (newViewPoint Real.pi windowWidth windowHeight).projection 11 = 0 ∧
    Perspective Real.tan (newViewPoint Real.pi windowWidth windowHeight).fovy
      (newViewPoint Real.pi windowWidth windowHeight).aspect
      (newViewPoint Real.pi windowWidth windowHeight).near
      (newViewPoint Real.pi windowWidth windowHeight).far 11 = -1 ∧
    ¬ ViewpointInvariant Real.tan Real.sqrt (newViewPoint Real.pi windowWidth windowHeight) := by
  have hzero : (newViewPoint Real.pi windowWidth windowHeight).projection 11 = 0 := rfl
  have hpersp : ∀ fovy aspect near far : ℝ,
      Perspective Real.tan fovy aspect near far 11 = -1 := fun _ _ _ _ => rfl
  refine ⟨hzero, hpersp _ _ _ _, ?_⟩
  rintro ⟨hproj, -⟩
  have h11 := congrFun hproj 11
  rw [hzero, hpersp] at h11
  norm_num at h11

/-- C10.  Whenever the set-up in `main` succeeds, the viewpoint's projection and
camera handles are the locations of "projection" and "camera" in cube2's program
(while cube1's model handle is the location of "model" in cube1's own program), and
`render(cube1, vp)` activates cube1's program and then uploads projection and camera
to those cube2-resolved locations; the location it uploads to is cube1's own location
of that uniform exactly when the two programs assign the uniform the same location. -/
theorem viewpoint_handles_are_cube2s {K : Type} [Field K] (pi : K) (tan sqrt : K → K)
    (env : Env K) (mem mem' : Memory K) (tr tr' : List (GLCall K)) (scene : Scene K)
    (hsetup : (mainSetup pi tan sqrt env mem tr).result = .ok scene) :
    scene.vp.projectionUniform = env.uniformLocation scene.cube2.program "projection" ∧
    scene.vp.cameraUniform = env.uniformLocation scene.cube2.program "camera" ∧
    scene.cube1.modelUniform = env.uniformLocation scene.cube1.program "model" ∧
    render mem' scene.cube1 scene.vp tr' = ⟨.ok (), tr' ++
      [.UseProgram scene.cube1.program,
       .UniformMatrix4fv (env.uniformLocation scene.cube2.program "projection") 1 false
          scene.vp.projection,
       .UniformMatrix4fv (env.uniformLocation scene.cube2.program "camera") 1 false
          scene.vp.camera,
       .UniformMatrix4fv (env.uniformLocation scene.cube1.program "model") 1 false
          scene.cube1.model,
       .BindVertexArray scene.cube1.vao,
       .ActiveTexture .TEXTURE0,
       .BindTexture .TEXTURE_2D scene.cube1.texture,
       .DrawArrays .TRIANGLES 0 (int32 (((mem' cubeVerticesAddr).length / 5 : Nat) : Int))]⟩ ∧
    (scene.vp.projectionUniform = env.uniformLocation scene.cube1.program "projection" ↔
      env.uniformLocation scene.cube2.program "projection"
        = env.uniformLocation scene.cube1.program "projection") ∧
    (scene.vp.cameraUniform = env.uniformLocation scene.cube1.program "camera" ↔
      env.uniformLocation scene.cube2.program "camera"
        = env.uniformLocation scene.cube1.program "camera") := by
  obtain ⟨hproj, hcam, hmodel, hvert⟩ := mainSetup_ensures pi tan sqrt env mem tr scene hsetup
  refine ⟨hproj, hcam, hmodel, ?_, by rw [hproj], by rw [hcam]⟩
  rw [render_run mem' scene.cube1 scene.vp cubeVerticesAddr hvert tr', hproj, hcam, hmodel]

/-- C10, witness: on a driver that gives program `p` the locations `4 * p ..`, the
set-up succeeds with cube1's program 9 and cube2's program 53; the viewpoint's
projection handle is 212, cube2's location, while cube1's own is 36. -/
theorem viewpoint_handles_are_cube2s_example :
    ∃ scene : Scene ℝ,
      (mainSetup Real.pi Real.tan Real.sqrt perProgramEnv (Memory.const cubeVertices) []).result
        = .ok scene ∧
      scene.cube1.program = 9 ∧ scene.cube2.program = 53 ∧
      scene.vp.projectionUniform
        = (perProgramEnv : Env ℝ).uniformLocation scene.cube2.program "projection" ∧
      (perProgramEnv : Env ℝ).uniformLocation scene.cube2.program "projection" = 212 ∧
      (perProgramEnv : Env ℝ).uniformLocation scene.cube1.program "projection" = 36 := by
  have hex : ∃ scene : Scene ℝ,
      (mainSetup Real.pi Real.tan Real.sqrt perProgramEnv (Memory.const cubeVertices) []).result
        = .ok scene := ⟨_, rfl⟩
  obtain ⟨scene, hs⟩ := hex
  have hprog : (match (mainSetup Real.pi Real.tan Real.sqrt perProgramEnv
        (Memory.const cubeVertices) []).result with
      | .ok s => some (s.cube1.program, s.cube2.program)
      | .error _ => none) = some (9, 53) := by decide
  rw [hs] at hprog
  simp only [Option.some.injEq, Prod.mk.injEq] at hprog
  have h := viewpoint_handles_are_cube2s Real.pi Real.tan Real.sqrt perProgramEnv
    (Memory.const cubeVertices) (Memory.const cubeVertices) [] [] scene hs
  refine ⟨scene, hs, hprog.1, hprog.2, h.1, ?_, ?_⟩
  · rw [hprog.2]; decide
  · rw [hprog.1]; decide

/-! ## Further properties of the code -/

/-- X1.  The calls `render` makes, and whether it returns, do not depend on the calls
made before it: rendering twice in succession with unchanged inputs issues the same
calls with the same arguments both times. -/
theorem render_calls_independent_of_history {K : Type} (mem : Memory K) (obj : simpleObj K)
    (vp : simpleViewPoint K) (tr : List (GLCall K)) :
    (render mem obj vp tr).trace = tr ++ (render mem obj vp).issued ∧
    (render mem obj vp tr).result = (render mem obj vp []).result ∧
    (render mem obj vp (render mem obj vp tr).trace).trace
      = tr ++ (render mem obj vp).issued ++ (render mem obj vp).issued := by
  have key : ∀ tr0 : List (GLCall K),
      (render mem obj vp tr0).trace = tr0 ++ (render mem obj vp).issued ∧
      (render mem obj vp tr0).result = (render mem obj vp []).result := by
    intro tr0
    unfold GLM.issued
    cases hv : obj.vertices with
    | none => simp [render, hv]
    | some a => simp [render_run mem obj vp a hv]
  refine ⟨(key tr).1, (key tr).2, ?_⟩
  rw [(key _).1, (key tr).1]

/-- X2.  When the vertex shader does not compile (the status read back is `gl.FALSE`,
the log length a sane one), `newProgram` panics, and the message names the source and
carries the log the driver wrote. -/
theorem newProgram_compile_failure_panics {K : Type} (env : Env K) (obj : simpleObj K)
    (vertexShaderSource fragmentShaderSource : String) (tr : List (GLCall K))
    (hstatus : ∀ tr s, env.shaderiv tr s .COMPILE_STATUS = GL_FALSE)
    (hlen : ∀ tr s, 0 ≤ env.shaderiv tr s .INFO_LOG_LENGTH ∧
      env.shaderiv tr s .INFO_LOG_LENGTH + 1 < 2 ^ 31) :
    ∃ log, (newProgram env obj vertexShaderSource fragmentShaderSource tr).result
      = .error ("failed to compile " ++ vertexShaderSource ++ ": " ++ log) := by
  have hcs : GLM.Returns (compileShader env vertexShaderSource .VERTEX_SHADER)
      (fun r => ∃ log, r = .error ("failed to compile " ++ vertexShaderSource ++ ": " ++ log)) := by
    unfold compileShader
    refine returns_bind (returns_glAsk (P := fun _ => True) _ _ (fun _ => trivial)) ?_
    intro shader _
    refine returns_bind (returns_gl (P := fun _ => True) _ trivial) ?_
    intro _ _
    refine returns_bind (returns_gl (P := fun _ => True) _ trivial) ?_
    intro _ _
    refine returns_bind
      (returns_glAsk (P := fun status => status = GL_FALSE) _ _ (fun tr => hstatus tr shader)) ?_
    intro status hs
    dsimp only
    rw [if_pos hs]
    refine returns_bind
      (returns_glAsk (P := fun n => 0 ≤ n ∧ n + 1 < 2 ^ 31) _ _ (fun tr => hlen tr shader)) ?_
    intro logLength hlog
    refine returns_bind (repeatNul_returns logLength hlog.1 hlog.2) ?_
    intro log0 hnul
    refine returns_bind (glStr_returns log0 hnul) ?_
    intro _ _
    refine returns_bind (returns_glAsk (P := fun _ => True) _ _ (fun _ => trivial)) ?_
    intro log _
    exact returns_pure ⟨log, rfl⟩
  obtain ⟨r, hr, log, rfl⟩ := hcs tr
  refine ⟨log, ?_⟩
  unfold newProgram
  rw [GLM.run_bind, hr]
  rfl

/-- X2, witness: a driver on which nothing compiles. -/
theorem newProgram_compile_failure_panics_example :
    ∃ log, (newProgram (compileFailEnv : Env ℚ) simpleObj.zero
        vertexShader fragmentShader []).result
      = .error ("failed to compile " ++ vertexShader ++ ": " ++ log) :=
  newProgram_compile_failure_panics compileFailEnv simpleObj.zero vertexShader fragmentShader []
    (fun _ _ => rfl) (fun _ _ => by simp [compileFailEnv])

/-- X3.  When the texture file cannot be opened, or opens and cannot be decoded,
`newTexture` panics with that error, having made no OpenGL call. -/
theorem newTexture_file_errors_panic {K : Type} (env : Env K) (obj : simpleObj K)
    (file : String) (tr : List (GLCall K)) (err : String)
    (h : env.openFile file = .error err ∨
      ∃ f, env.openFile file = .ok f ∧ env.decode f = .error err) :
    newTexture env obj file tr = ⟨.error err, tr⟩ := by
  rcases h with hopen | ⟨f, hopen, hdecode⟩
  · simp [newTexture, hopen]
  · simp [newTexture, hopen, hdecode]

/-- X3, witness: the file "square.png" is missing. -/
theorem newTexture_file_errors_panic_example :
    newTexture (noFileEnv : Env ℚ) simpleObj.zero "square.png" []
      = ⟨.error "open square.png: no such file or directory", []⟩ :=
  newTexture_file_errors_panic noFileEnv simpleObj.zero "square.png" [] _ (Or.inl rfl)

/-- X4.  Whatever the rounding is, after every iteration of the frame loop the
accumulated angle is the running sum, each addition rounded to `float64`, of the
elapsed times, each a difference of successive clock readings rounded to `float64`;
cube1's model is the rotation about `(1,0,0)` by `float32(angle)/5` and cube2's by
`float32(angle)/2`, the conversion and the division each rounded to `float32`. -/
theorem frame_loop_in_floating_point {K : Type} [Field K] (round64 round32 sin cos : K → K)
    (now : K) (cube1 cube2 : simpleObj K) (times : List K) (time : K) :
    (runFramesRounded round64 round32 sin cos (frameInit now cube1 cube2)
        (times ++ [time])).angle
      = (elapsedRounded round64 now (times ++ [time])).foldl
          (fun sum elapsed => round64 (sum + elapsed)) 0 ∧
    (runFramesRounded round64 round32 sin cos (frameInit now cube1 cube2)
        (times ++ [time])).cube1.model
      = HomogRotate3D sin cos (round32 (round32
          (runFramesRounded round64 round32 sin cos (frameInit now cube1 cube2)
            (times ++ [time])).angle / 5)) ![1, 0, 0] ∧
    (runFramesRounded round64 round32 sin cos (frameInit now cube1 cube2)
        (times ++ [time])).cube2.model
      = HomogRotate3D sin cos (round32 (round32
          (runFramesRounded round64 round32 sin cos (frameInit now cube1 cube2)
            (times ++ [time])).angle / 2)) ![1, 0, 0] := by
  refine ⟨runFramesRounded_angle round64 round32 sin cos (times ++ [time])
    (frameInit now cube1 cube2), ?_, ?_⟩
  · rw [runFramesRounded_snoc]; rfl
  · rw [runFramesRounded_snoc]; rfl

/-- X5.  `newVao` given a pointer to an empty vertex slice panics in `gl.Ptr` after the
vertex array and the buffer have been generated and bound: nothing is uploaded and no
attribute is set up. -/
theorem newVao_empty_slice_panics {K : Type} (env : Env K) (mem : Memory K) (obj : simpleObj K)
    (a : Nat) (tr : List (GLCall K)) (hempty : mem a = []) :
    ∃ calls, newVao env mem obj (some a) tr
        = ⟨.error "reflect: slice index out of range", tr ++ calls⟩ ∧
      calls.length = 4 ∧
      ∀ c ∈ calls, ∀ size data, c ≠ GLCall.BufferData .ARRAY_BUFFER size data .STATIC_DRAW := by
  refine ⟨_, newVao_run_empty env mem obj a tr hempty, rfl, ?_⟩
  intro c hc size data
  simp only [List.mem_cons, List.mem_singleton, List.not_mem_nil, or_false] at hc
  rcases hc with h | h | h | h <;> rw [h] <;> simp

/-- X5, witness: an empty vertex slice with the sample driver. -/
theorem newVao_empty_slice_panics_example :
    (newVao (okEnv : Env ℚ) (Memory.const []) simpleObj.zero (some cubeVerticesAddr) []).result
      = .error "reflect: slice index out of range" := by
  obtain ⟨calls, h, -, -⟩ := newVao_empty_slice_panics (okEnv : Env ℚ) (Memory.const [])
    simpleObj.zero cubeVerticesAddr [] rfl
  rw [h]

/-- X6.  The five-second step in floating point: entering the loop at clock reading
0 and reading 5 in the first iteration, no operation rounds; the angle is 5, cube1's
model is the rotation by 1 and cube2's the rotation by 5/2 about `(1,0,0)`, as in
exact arithmetic. -/
theorem five_second_step_in_floating_point (sin cos : ℚ → ℚ) (cube1 cube2 : simpleObj ℚ) :
    (updateVariablesRounded float64 float32 sin cos (frameInit 0 cube1 cube2) 5).angle = 5 ∧
    (updateVariablesRounded float64 float32 sin cos (frameInit 0 cube1 cube2) 5).cube1.model
      = HomogRotate3D sin cos 1 ![1, 0, 0] ∧
    (updateVariablesRounded float64 float32 sin cos (frameInit 0 cube1 cube2) 5).cube2.model
      = HomogRotate3D sin cos (5 / 2) ![1, 0, 0] ∧
    (updateVariablesRounded float64 float32 sin cos (frameInit 0 cube1 cube2) 5)
      = updateVariables sin cos (frameInit 0 cube1 cube2) 5 := by
  have ha : float64 (0 + float64 (5 - 0)) = 5 := by decide!
  have h5 : float32 (float32 5 / 5) = 1 := by decide!
  have h2 : float32 (float32 5 / 2) = 5 / 2 := by decide!
  have hangle : (updateVariablesRounded float64 float32 sin cos
      (frameInit 0 cube1 cube2) 5).angle = 5 := ha
  have hm1 : (updateVariablesRounded float64 float32 sin cos
      (frameInit 0 cube1 cube2) 5).cube1.model = HomogRotate3D sin cos 1 ![1, 0, 0] := by
    show HomogRotate3D sin cos (float32 (float32 (float64 (0 + float64 (5 - 0))) / 5))
      ![1, 0, 0] = _
    rw [ha, h5]
  have hm2 : (updateVariablesRounded float64 float32 sin cos
      (frameInit 0 cube1 cube2) 5).cube2.model = HomogRotate3D sin cos (5 / 2) ![1, 0, 0] := by
    show HomogRotate3D sin cos (float32 (float32 (float64 (0 + float64 (5 - 0))) / 2))
      ![1, 0, 0] = _
    rw [ha, h2]
  refine ⟨hangle, hm1, hm2, ?_⟩
  rw [updateVariables_eq]
  simp only [updateVariablesRounded, frameInit]
  rw [ha, h5, h2]
  norm_num

end HelloCube
